import Mathlib

/- Verification development for the sales-bonus repository.
   The repository has two source variants of the same analysis function:
   src/src/main.js (namespace MainJs below) and src/unnamed/part_000
   (namespace Part000 below). JS numbers are modelled as rationals,
   JS Map objects and plain objects used as dictionaries are modelled as
   insertion-ordered association lists, and thrown JS errors are modelled
   with Except. -/

set_option maxHeartbeats 1000000

/- Generic insertion-ordered association lists, shared by both variants. -/

/-- First-match lookup in an association list, modelling Map.get and object indexing. -/
def lookupKV {K V : Type} [DecidableEq K] : List (K × V) → K → Option V
  | [], _ => none
  | kv :: rest, k => if kv.1 = k then some kv.2 else lookupKV rest k

/-- Set a key, replacing the value of the first occurrence in place, or appending a new
entry at the end, modelling Map.set and object property assignment: existing keys keep
their position, new keys go last. -/
def setKV {K V : Type} [DecidableEq K] : List (K × V) → K → V → List (K × V)
  | [], k, v => [(k, v)]
  | kv :: rest, k, v => if kv.1 = k then (k, v) :: rest else kv :: setKV rest k v

/-- Update the value at the first occurrence of a key in place. -/
def updateKV {K V : Type} [DecidableEq K] (f : V → V) : List (K × V) → K → List (K × V)
  | [], _ => []
  | kv :: rest, k => if kv.1 = k then (kv.1, f kv.2) :: rest else kv :: updateKV f rest k

/-- Keys of an association list in order. -/
def keysKV {K V : Type} (l : List (K × V)) : List K := l.map Prod.fst

/-- Build an association list from a list of entities by a forEach of set operations:
a later entity with the same key silently overwrites the value of an earlier one. -/
def buildMap {A K V : Type} [DecidableEq K] (key : A → K) (val : A → V) (l : List A) :
    List (K × V) :=
  l.foldl (fun m a => setKV m (key a) (val a)) []

/-- Map over a list together with a running index, modelling indexed forEach loops. -/
def mapWithIndex {A B : Type} (f : ℕ → A → B) : ℕ → List A → List B
  | _, [] => []
  | i, a :: rest => f i a :: mapWithIndex f (i + 1) rest

/-- Rounding to two decimal places, modelling Number(x.toFixed(2)) on the rational model
of JS numbers (round to nearest, half up). Written with Rat.floor so that it evaluates
by kernel reduction; round2_eq identifies it with the standard round. -/
def round2 (q : ℚ) : ℚ := (((q * 100 + 1 / 2).floor : ℤ) : ℚ) / 100

/- Data model from section 3 of the specification, as read by the source. -/

structure Product where
  sku : String
  name : String
  purchase_price : ℚ
  deriving DecidableEq

structure Seller where
  id : String
  first_name : String
  last_name : String
  deriving DecidableEq

structure LineItem where
  sku : String
  discount : ℚ
  sale_price : ℚ
  quantity : ℕ
  deriving DecidableEq

structure PurchaseRecord where
  seller_id : String
  total_amount : ℚ
  items : List LineItem
  deriving DecidableEq

/-- Raw input object as passed to analyzeSalesData. Each field is an Option: none models
a field that is absent or not an array, which the shape checks of both variants reject
the same way; some models an array-valued field. -/
structure RawData where
  customers : Option (List String)
  products : Option (List Product)
  sellers : Option (List Seller)
  purchase_records : Option (List PurchaseRecord)
  deriving DecidableEq

/-- The three collections after shape validation. -/
structure SalesData where
  products : List Product
  sellers : List Seller
  purchase_records : List PurchaseRecord
  deriving DecidableEq

/-- Errors thrown by the two variants; constructors stand for the distinct throw sites.
typeError models the crash of part_000 when it reads a property of undefined after a
failed seller or product lookup. -/
inductive JsError where
  | invalidData : JsError
  | invalidOptions : JsError
  | invalidInput : JsError
  | missingFunctions : JsError
  | typeError : JsError
  deriving DecidableEq

def exceptDecEq {E A : Type} [DecidableEq E] [DecidableEq A] : DecidableEq (Except E A) := by
  intro a b
  cases a <;> cases b
  case error.error e1 e2 =>
    exact match decEq e1 e2 with
    | isTrue h => isTrue (by rw [h])
    | isFalse h => isFalse (by intro hc; cases hc; exact h rfl)
  case error.ok e1 a2 => exact isFalse (by intro hc; cases hc)
  case ok.error a1 e2 => exact isFalse (by intro hc; cases hc)
  case ok.ok a1 a2 =>
    exact match decEq a1 a2 with
    | isTrue h => isTrue (by rw [h])
    | isFalse h => isFalse (by intro hc; cases hc; exact h rfl)

instance {E A : Type} [DecidableEq E] [DecidableEq A] : DecidableEq (Except E A) := exceptDecEq

namespace MainJs

/-- Per-product statistics entry of src/src/main.js (the object stored in the
top_products map of a seller during aggregation, lines 93-98). -/
structure ProductStat where
  product_id : String
  name : String
  quantity : ℕ
  revenue : ℚ
  deriving DecidableEq

/-- Per-seller accumulator of src/src/main.js lines 53-60: top_products is a Map from
sku to ProductStat during aggregation. -/
structure SellerAcc where
  seller_id : String
  name : String
  revenue : ℚ
  profit : ℚ
  sales_count : ℕ
  top_products : List (String × ProductStat)
  deriving DecidableEq

/-- Seller record after the top_products map is materialized into a sorted, truncated
array (src/src/main.js lines 106-111); this is the object the bonus strategy receives. -/
structure RankedSeller where
  seller_id : String
  name : String
  revenue : ℚ
  profit : ℚ
  sales_count : ℕ
  top_products : List ProductStat
  deriving DecidableEq

/-- Final output record of src/src/main.js lines 124-137. -/
structure SellerOut where
  seller_id : String
  name : String
  revenue : ℚ
  profit : ℚ
  bonus : ℚ
  sales_count : ℕ
  top_products : List ProductStat
  deriving DecidableEq

/-- Options object of src/src/main.js line 39: each strategy field may be absent. -/
structure Options where
  calculateRevenue : Option (LineItem → Product → ℚ)
  calculateBonus : Option (ℕ → ℕ → RankedSeller → ℚ)

/-- Transcribes calculateSimpleRevenue, src/src/main.js lines 7-10. -/
def calculateSimpleRevenue (purchase : LineItem) (_product : Product) : ℚ :=
  purchase.sale_price * (purchase.quantity : ℚ) * (1 - purchase.discount / 100)

/-- Transcribes calculateBonusByProfit, src/src/main.js lines 19-24. It returns the
bonus percentage as a fraction; the branches are checked in source order. The source
compares index with total - 1 on JS numbers; on naturals the truncated total - 1 agrees
with the JS comparison on every branch that is actually reachable, since the branch is
only reached for index at least 3. -/
def calculateBonusByProfit (index total : ℕ) (_seller : RankedSeller) : ℚ :=
  if index = 0 then 0.15
  else if index = 1 ∨ index = 2 then 0.1
  else if index = total - 1 then 0
  else 0.05

/-- Transcribes checkData, src/src/main.js lines 141-156: the data object and all four
collections, including customers, must be present arrays; the three distinct throw
sites are collapsed into the single constructor invalidData. -/
def checkData : Option RawData → Except JsError SalesData
  | none => .error .invalidData
  | some d =>
    match d.customers, d.products, d.sellers, d.purchase_records with
    | some _, some ps, some ss, some rs =>
        .ok { products := ps, sellers := ss, purchase_records := rs }
    | _, _, _, _ => .error .invalidData

/-- Transcribes checkOptions, src/src/main.js lines 158-172: the options object itself
must be present; a strategy field that is a non-function value cannot arise in the
typed model, so a present options object always passes. -/
def checkOptions : Option Options → Except JsError Options
  | none => .error .invalidOptions
  | some o => .ok o

/-- Initial accumulator for one seller, src/src/main.js lines 52-61. -/
def initSellerStat (seller : Seller) : SellerAcc :=
  { seller_id := seller.id
    name := seller.first_name ++ " " ++ seller.last_name
    revenue := 0
    profit := 0
    sales_count := 0
    top_products := [] }

/-- Product index by sku, src/src/main.js lines 47-49. -/
def buildProductMap (products : List Product) : List (String × Product) :=
  buildMap Product.sku (fun p => p) products

/-- Seller accumulator map by id, src/src/main.js lines 52-61. -/
def buildSellerMap (sellers : List Seller) : List (String × SellerAcc) :=
  buildMap Seller.id initSellerStat sellers

/-- One iteration of the inner item loop, src/src/main.js lines 69-101: an item whose
sku is not in the product index is skipped; otherwise revenue, profit and sales_count
are accumulated and the per-product entry is upserted. -/
def applyItem (productMap : List (String × Product)) (calcRevenue : LineItem → Product → ℚ)
    (seller : SellerAcc) (item : LineItem) : SellerAcc :=
  match lookupKV productMap item.sku with
  | none => seller
  | some product =>
    let revenue := calcRevenue item product
    let cost := product.purchase_price * (item.quantity : ℚ)
    let profit := revenue - cost
    { seller with
        revenue := seller.revenue + revenue
        profit := seller.profit + profit
        sales_count := seller.sales_count + item.quantity
        top_products :=
          match lookupKV seller.top_products product.sku with
          | some _ =>
              updateKV
                (fun ps => { ps with
                  quantity := ps.quantity + item.quantity
                  revenue := ps.revenue + revenue })
                seller.top_products product.sku
          | none =>
              seller.top_products ++
                [(product.sku,
                  { product_id := product.sku
                    name := product.name
                    quantity := item.quantity
                    revenue := revenue })] }

/-- One iteration of the outer purchase loop, src/src/main.js lines 64-103: a record
whose seller_id is not in the seller map is skipped entirely. -/
def processPurchase (productMap : List (String × Product))
    (calcRevenue : LineItem → Product → ℚ) (stats : List (String × SellerAcc))
    (purchase : PurchaseRecord) : List (String × SellerAcc) :=
  match lookupKV stats purchase.seller_id with
  | none => stats
  | some _ =>
      updateKV (fun s => purchase.items.foldl (applyItem productMap calcRevenue) s)
        stats purchase.seller_id

/-- Descending order on per-product revenue, the comparator at src/src/main.js line 109. -/
def prodRevGe (a b : ProductStat) : Prop := b.revenue ≤ a.revenue

instance : DecidableRel prodRevGe :=
  fun a b => inferInstanceAs (Decidable (b.revenue ≤ a.revenue))

instance : IsTotal ProductStat prodRevGe := ⟨fun a b => le_total b.revenue a.revenue⟩

instance : IsTrans ProductStat prodRevGe := ⟨fun _ _ _ h1 h2 => le_trans h2 h1⟩

/-- Materialize one accumulator, src/src/main.js lines 106-111: the per-product map
becomes an array sorted by revenue descending and truncated to ten entries. -/
def rankSeller (acc : SellerAcc) : RankedSeller :=
  { seller_id := acc.seller_id
    name := acc.name
    revenue := acc.revenue
    profit := acc.profit
    sales_count := acc.sales_count
    top_products := (List.insertionSort prodRevGe (acc.top_products.map Prod.snd)).take 10 }

/-- Descending order on profit, the comparator at src/src/main.js line 114. -/
def profitGe (a b : RankedSeller) : Prop := b.profit ≤ a.profit

instance : DecidableRel profitGe :=
  fun a b => inferInstanceAs (Decidable (b.profit ≤ a.profit))

instance : IsTotal RankedSeller profitGe := ⟨fun a b => le_total b.profit a.profit⟩

instance : IsTrans RankedSeller profitGe := ⟨fun _ _ _ h1 h2 => le_trans h2 h1⟩

/-- Final output record for one seller, src/src/main.js lines 124-137, rounding the
monetary fields to two decimals. -/
def finalizeSeller (s : RankedSeller) (bonus : ℚ) : SellerOut :=
  { seller_id := s.seller_id
    name := s.name
    revenue := round2 s.revenue
    profit := round2 s.profit
    bonus := round2 bonus
    sales_count := s.sales_count
    top_products := s.top_products.map (fun p => { p with revenue := round2 p.revenue }) }

/-- The computation of src/src/main.js lines 42-137 after both checks pass. The bonus
assignment at lines 118-121 multiplies the strategy result by the profit of the seller. -/
def analyzeCore (d : SalesData) (calcRevenue : LineItem → Product → ℚ)
    (calcBonus : ℕ → ℕ → RankedSeller → ℚ) : List SellerOut :=
  let productMap := buildProductMap d.products
  let sellerMap := buildSellerMap d.sellers
  let finalStats := d.purchase_records.foldl (processPurchase productMap calcRevenue) sellerMap
  let sellersArray := (finalStats.map Prod.snd).map rankSeller
  let sorted := List.insertionSort profitGe sellersArray
  mapWithIndex (fun i s => finalizeSeller s (s.profit * calcBonus i sorted.length s)) 0 sorted

/-- Transcribes analyzeSalesData, src/src/main.js lines 32-138: checkData, then
checkOptions, then destructuring with default strategies, then the core computation. -/
def analyzeSalesData (data : Option RawData) (options : Option Options) :
    Except JsError (List SellerOut) :=
  match checkData data with
  | .error e => .error e
  | .ok d =>
    match checkOptions options with
    | .error e => .error e
    | .ok opts =>
        .ok (analyzeCore d (opts.calculateRevenue.getD calculateSimpleRevenue)
          (opts.calculateBonus.getD calculateBonusByProfit))

end MainJs

namespace Part000

/-- Per-seller accumulator of src/unnamed/part_000 lines 82-91: products_sold maps a
sku to the accumulated quantity only. -/
structure SellerStat where
  seller_id : String
  name : String
  revenue : ℚ
  profit : ℚ
  sales_count : ℕ
  products_sold : List (String × ℕ)
  deriving DecidableEq

/-- Final output record of src/unnamed/part_000 lines 158-166: top_products entries are
sku and quantity pairs, with no revenue field. -/
structure SellerOut where
  seller_id : String
  name : String
  revenue : ℚ
  profit : ℚ
  sales_count : ℕ
  top_products : List (String × ℕ)
  bonus : ℚ
  deriving DecidableEq

/-- Options object of src/unnamed/part_000 lines 73-78: a field is none when the
property is absent or not a function, which the check rejects. -/
structure Options where
  calculateRevenue : Option (LineItem → Product → ℚ)
  calculateBonus : Option (ℕ → ℕ → SellerStat → ℚ)

/-- Transcribes calculateSimpleRevenue, src/unnamed/part_000 lines 10-18. -/
def calculateSimpleRevenue (purchase : LineItem) (_product : Product) : ℚ :=
  let discountAmount := purchase.sale_price * (purchase.discount / 100)
  let finalPrice := purchase.sale_price - discountAmount
  finalPrice * (purchase.quantity : ℚ)

/-- Transcribes calculateBonusByProfit, src/unnamed/part_000 lines 28-39. Unlike the
main.js version it returns the bonus amount itself, already multiplied by profit. -/
def calculateBonusByProfit (index total : ℕ) (seller : SellerStat) : ℚ :=
  if index = 0 then seller.profit * 0.15
  else if index = 1 ∨ index = 2 then seller.profit * 0.1
  else if index = total - 1 then 0
  else seller.profit * 0.05

/-- Initial accumulator for one seller, src/unnamed/part_000 lines 82-91. -/
def initSellerStat (seller : Seller) : SellerStat :=
  { seller_id := seller.id
    name := seller.first_name ++ " " ++ seller.last_name
    revenue := 0
    profit := 0
    sales_count := 0
    products_sold := [] }

/-- One iteration of the inner item loop, src/unnamed/part_000 lines 113-133: an item
whose sku is not in the product index makes the source read purchase_price of
undefined, which throws. -/
def processItem (productIndex : List (String × Product))
    (calcRevenue : LineItem → Product → ℚ) (s : SellerStat) (item : LineItem) :
    Except JsError SellerStat :=
  match lookupKV productIndex item.sku with
  | none => .error .typeError
  | some product =>
    let itemCost := product.purchase_price * (item.quantity : ℚ)
    let itemRevenue := calcRevenue item product
    let itemProfit := itemRevenue - itemCost
    .ok { s with
      profit := s.profit + itemProfit
      products_sold :=
        match lookupKV s.products_sold item.sku with
        | some _ => updateKV (fun q => q + item.quantity) s.products_sold item.sku
        | none => s.products_sold ++ [(item.sku, item.quantity)] }

/-- The inner forEach over the items of one record; a thrown error aborts everything. -/
def foldItems (productIndex : List (String × Product))
    (calcRevenue : LineItem → Product → ℚ) :
    SellerStat → List LineItem → Except JsError SellerStat
  | s, [] => .ok s
  | s, item :: rest =>
    match processItem productIndex calcRevenue s item with
    | .error e => .error e
    | .ok s2 => foldItems productIndex calcRevenue s2 rest

/-- The receipt-level updates of src/unnamed/part_000 lines 109-110: the receipt
counter is incremented and the receipt total_amount is added to the revenue before the
items of the record are processed. -/
def bumpReceipt (s0 : SellerStat) (amount : ℚ) : SellerStat :=
  { s0 with sales_count := s0.sales_count + 1, revenue := s0.revenue + amount }

/-- One iteration of the outer record loop, src/unnamed/part_000 lines 105-134: a
record whose seller_id is not a known seller makes the source read sales_count of
undefined, which throws. -/
def processRecord (productIndex : List (String × Product))
    (calcRevenue : LineItem → Product → ℚ) (stats : List (String × SellerStat))
    (record : PurchaseRecord) : Except JsError (List (String × SellerStat)) :=
  match lookupKV stats record.seller_id with
  | none => .error .typeError
  | some s0 =>
    match foldItems productIndex calcRevenue (bumpReceipt s0 record.total_amount)
        record.items with
    | .error e => .error e
    | .ok s2 => .ok (updateKV (fun _ => s2) stats record.seller_id)

/-- The outer forEach over all purchase records. -/
def foldRecords (productIndex : List (String × Product))
    (calcRevenue : LineItem → Product → ℚ) :
    List (String × SellerStat) → List PurchaseRecord →
    Except JsError (List (String × SellerStat))
  | stats, [] => .ok stats
  | stats, record :: rest =>
    match processRecord productIndex calcRevenue stats record with
    | .error e => .error e
    | .ok stats2 => foldRecords productIndex calcRevenue stats2 rest

/-- Descending order on profit, the comparator at src/unnamed/part_000 line 138. -/
def profitGe (a b : SellerStat) : Prop := b.profit ≤ a.profit

instance : DecidableRel profitGe :=
  fun a b => inferInstanceAs (Decidable (b.profit ≤ a.profit))

instance : IsTotal SellerStat profitGe := ⟨fun a b => le_total b.profit a.profit⟩

instance : IsTrans SellerStat profitGe := ⟨fun _ _ _ h1 h2 => le_trans h2 h1⟩

/-- Descending order on quantity, the comparator at src/unnamed/part_000 line 153. -/
def qtyGe (a b : String × ℕ) : Prop := b.2 ≤ a.2

instance : DecidableRel qtyGe := fun a b => inferInstanceAs (Decidable (b.2 ≤ a.2))

instance : IsTotal (String × ℕ) qtyGe := ⟨fun a b => le_total b.2 a.2⟩

instance : IsTrans (String × ℕ) qtyGe := ⟨fun _ _ _ h1 h2 => le_trans h2 h1⟩

/-- Final output record for one seller, src/unnamed/part_000 lines 143-166: the bonus
is the strategy result taken directly, top_products is the quantity map sorted by
quantity descending and truncated to ten entries, and the monetary fields are rounded. -/
def finalizeSeller (s : SellerStat) (bonus : ℚ) : SellerOut :=
  { seller_id := s.seller_id
    name := s.name
    revenue := round2 s.revenue
    profit := round2 s.profit
    sales_count := s.sales_count
    top_products := (List.insertionSort qtyGe s.products_sold).take 10
    bonus := round2 bonus }

/-- The computation of src/unnamed/part_000 lines 80-166 after both checks pass. The
sellerIndex built at lines 94-97 of the source is never read afterwards and is omitted. -/
def analyzeCore (d : SalesData) (calcRevenue : LineItem → Product → ℚ)
    (calcBonus : ℕ → ℕ → SellerStat → ℚ) : Except JsError (List SellerOut) :=
  let sellersStats := buildMap Seller.id initSellerStat d.sellers
  let productIndex := buildMap Product.sku (fun p => p) d.products
  match foldRecords productIndex calcRevenue sellersStats d.purchase_records with
  | .error e => .error e
  | .ok stats =>
    let sortedSellers := List.insertionSort profitGe (stats.map Prod.snd)
    .ok (mapWithIndex
      (fun i s => finalizeSeller s (calcBonus i sortedSellers.length s)) 0 sortedSellers)

/-- Transcribes analyzeSalesData, src/unnamed/part_000 lines 60-167: the data object
with its three collections must be present arrays, purchase_records must be non-empty,
and both strategy functions are mandatory; the customers field is never inspected. -/
def analyzeSalesData (data : Option RawData) (options : Option Options) :
    Except JsError (List SellerOut) :=
  match data with
  | none => .error .invalidInput
  | some d =>
    match d.sellers, d.products, d.purchase_records with
    | some ss, some ps, some rs =>
      if rs.length = 0 then .error .invalidInput
      else
        match options with
        | none => .error .missingFunctions
        | some o =>
          match o.calculateRevenue, o.calculateBonus with
          | some cR, some cB =>
              analyzeCore { products := ps, sellers := ss, purchase_records := rs } cR cB
          | _, _ => .error .missingFunctions
    | _, _, _ => .error .invalidInput

end Part000

/- Spec-side notions used to state the claims. -/

/-- Formalizes the valid-input hypothesis of the claims: seller ids are unique, every
purchase record references a known seller and every line item references a known
product. -/
def ValidInput (d : SalesData) : Prop :=
  (d.sellers.map Seller.id).Nodup ∧
  (∀ r ∈ d.purchase_records, r.seller_id ∈ d.sellers.map Seller.id) ∧
  (∀ r ∈ d.purchase_records, ∀ it ∈ r.items, it.sku ∈ d.products.map Product.sku)

instance (d : SalesData) : Decidable (ValidInput d) := by
  unfold ValidInput; infer_instance

/-- The reference quantity of claim C1: the sum over all line items of the injected
revenue of the item with its indexed product. An item whose sku resolves to no product
contributes zero; under ValidInput every item resolves. -/
def totalLineRevenue (products : List Product) (calcRevenue : LineItem → Product → ℚ)
    (records : List PurchaseRecord) : ℚ :=
  (records.map (fun r =>
    (r.items.map (fun it =>
      match lookupKV (buildMap Product.sku (fun p => p) products) it.sku with
      | some p => calcRevenue it p
      | none => 0)).sum)).sum

/-- Removes exactly the offending references: purchase records of unknown sellers are
dropped and line items with unknown skus are dropped from the remaining records. Used
to state the lenient-skip policy of claim C7. -/
def cleanseRecords (products : List Product) (sellers : List Seller)
    (records : List PurchaseRecord) : List PurchaseRecord :=
  (records.filter (fun r => decide (r.seller_id ∈ sellers.map Seller.id))).map
    (fun r =>
      { r with items := r.items.filter (fun it => decide (it.sku ∈ products.map Product.sku)) })

/- Lemmas about the association-list operations. -/

@[simp]
theorem keysKV_nil {K V : Type} : keysKV ([] : List (K × V)) = [] := rfl

@[simp]
theorem keysKV_cons {K V : Type} (kv : K × V) (l : List (K × V)) :
    keysKV (kv :: l) = kv.1 :: keysKV l := rfl

theorem lookupKV_eq_none_iff {K V : Type} [DecidableEq K] (l : List (K × V)) (k : K) :
    lookupKV l k = none ↔ k ∉ keysKV l := by
  induction l with
  | nil => simp [lookupKV]
  | cons kv rest ih =>
    simp only [lookupKV, keysKV_cons, List.mem_cons]
    by_cases h : kv.1 = k
    · simp [h]
    · rw [if_neg h, ih]
      constructor
      · intro hn hc
        rcases hc with hc | hc
        · exact h hc.symm
        · exact hn hc
      · intro hn hc
        exact hn (Or.inr hc)

theorem exists_lookupKV {K V : Type} [DecidableEq K] {l : List (K × V)} {k : K}
    (h : k ∈ keysKV l) : ∃ v, lookupKV l k = some v := by
  rcases ho : lookupKV l k with _ | v
  · exact absurd ((lookupKV_eq_none_iff l k).mp ho) (by simp [h])
  · exact ⟨v, rfl⟩

theorem lookupKV_mem {K V : Type} [DecidableEq K] {l : List (K × V)} {k : K} {v : V}
    (h : lookupKV l k = some v) : (k, v) ∈ l := by
  induction l with
  | nil => simp [lookupKV] at h
  | cons kv rest ih =>
    by_cases hk : kv.1 = k
    · simp only [lookupKV, if_pos hk] at h
      cases h
      subst hk
      exact List.mem_cons_self kv rest
    · simp only [lookupKV, if_neg hk] at h
      exact List.mem_cons_of_mem _ (ih h)

theorem mem_keysKV_setKV {K V : Type} [DecidableEq K] (l : List (K × V)) (k k2 : K) (v : V) :
    k2 ∈ keysKV (setKV l k v) ↔ k2 ∈ keysKV l ∨ k2 = k := by
  induction l with
  | nil => simp [setKV, eq_comm]
  | cons kv rest ih =>
    by_cases h : kv.1 = k
    · simp only [setKV, if_pos h, keysKV_cons, List.mem_cons]
      rw [← h]
      tauto
    · simp only [setKV, if_neg h, keysKV_cons, List.mem_cons, ih]
      tauto

theorem lookupKV_setKV_self {K V : Type} [DecidableEq K] (l : List (K × V)) (k : K) (v : V) :
    lookupKV (setKV l k v) k = some v := by
  induction l with
  | nil => simp [setKV, lookupKV]
  | cons kv rest ih =>
    by_cases h : kv.1 = k
    · simp [setKV, lookupKV, h]
    · simp [setKV, lookupKV, h, ih]

theorem lookupKV_setKV_ne {K V : Type} [DecidableEq K] (l : List (K × V)) (k k2 : K) (v : V)
    (h : k2 ≠ k) : lookupKV (setKV l k v) k2 = lookupKV l k2 := by
  induction l with
  | nil =>
    show (if k = k2 then some v else none) = none
    rw [if_neg (fun he => h he.symm)]
  | cons kv rest ih =>
    by_cases hk : kv.1 = k
    · subst hk
      simp only [setKV, if_pos rfl, lookupKV]
      rw [if_neg (fun he => h he.symm), if_neg (fun he => h he.symm)]
    · simp only [setKV, if_neg hk, lookupKV]
      by_cases h2 : kv.1 = k2
      · simp [h2]
      · simp [h2, ih]

theorem mem_setKV {K V : Type} [DecidableEq K] {l : List (K × V)} {k : K} {v : V}
    {kv2 : K × V} (h : kv2 ∈ setKV l k v) : kv2 ∈ l ∨ kv2 = (k, v) := by
  induction l with
  | nil =>
    simp [setKV] at h
    simp [h]
  | cons kv rest ih =>
    by_cases hk : kv.1 = k
    · simp only [setKV, if_pos hk, List.mem_cons] at h
      rcases h with h | h
      · right; exact h
      · left; exact List.mem_cons_of_mem _ h
    · simp only [setKV, if_neg hk, List.mem_cons] at h
      rcases h with h | h
      · left; simp [h]
      · rcases ih h with h2 | h2
        · left; exact List.mem_cons_of_mem _ h2
        · right; exact h2

theorem keysKV_updateKV {K V : Type} [DecidableEq K] (f : V → V) (l : List (K × V)) (k : K) :
    keysKV (updateKV f l k) = keysKV l := by
  induction l with
  | nil => rfl
  | cons kv rest ih =>
    by_cases h : kv.1 = k
    · simp [updateKV, h]
    · simp only [updateKV, if_neg h, keysKV_cons, ih]

theorem lookupKV_updateKV_self {K V : Type} [DecidableEq K] (f : V → V) {l : List (K × V)}
    {k : K} {v : V} (h : lookupKV l k = some v) :
    lookupKV (updateKV f l k) k = some (f v) := by
  induction l with
  | nil => simp [lookupKV] at h
  | cons kv rest ih =>
    by_cases hk : kv.1 = k
    · simp only [lookupKV, if_pos hk] at h
      cases h
      simp [updateKV, lookupKV, hk]
    · simp only [lookupKV, if_neg hk] at h
      simp only [updateKV, if_neg hk, lookupKV, if_neg hk]
      exact ih h

theorem lookupKV_updateKV_ne {K V : Type} [DecidableEq K] (f : V → V) (l : List (K × V))
    (k k2 : K) (h : k2 ≠ k) : lookupKV (updateKV f l k) k2 = lookupKV l k2 := by
  induction l with
  | nil => rfl
  | cons kv rest ih =>
    by_cases hk : kv.1 = k
    · subst hk
      simp only [updateKV, if_pos rfl, lookupKV]
      rw [if_neg (fun he => h he.symm), if_neg (fun he => h he.symm)]
    · simp only [updateKV, if_neg hk, lookupKV]
      by_cases h2 : kv.1 = k2
      · simp [h2]
      · simp [h2, ih]

theorem length_updateKV {K V : Type} [DecidableEq K] (f : V → V) (l : List (K × V)) (k : K) :
    (updateKV f l k).length = l.length := by
  induction l with
  | nil => rfl
  | cons kv rest ih =>
    by_cases h : kv.1 = k
    · simp [updateKV, h]
    · simp [updateKV, h, ih]

theorem sum_map_updateKV {K V : Type} [DecidableEq K] (g : V → ℚ) (f : V → V)
    {l : List (K × V)} {k : K} {v : V} (h : lookupKV l k = some v) :
    ((updateKV f l k).map (fun kv => g kv.2)).sum
      = (l.map (fun kv => g kv.2)).sum + (g (f v) - g v) := by
  induction l with
  | nil => simp [lookupKV] at h
  | cons kv rest ih =>
    by_cases hk : kv.1 = k
    · simp only [lookupKV, if_pos hk] at h
      cases h
      simp only [updateKV, if_pos hk, List.map_cons, List.sum_cons]
      ring
    · simp only [lookupKV, if_neg hk] at h
      simp only [updateKV, if_neg hk, List.map_cons, List.sum_cons, ih h]
      ring

/- Lemmas about buildMap, the forEach construction of an index. -/

theorem mem_keysKV_foldl_setKV {A K V : Type} [DecidableEq K] (key : A → K) (val : A → V)
    (k : K) : ∀ (l : List A) (m : List (K × V)),
    k ∈ keysKV (l.foldl (fun m a => setKV m (key a) (val a)) m) ↔
      k ∈ keysKV m ∨ k ∈ l.map key := by
  intro l
  induction l with
  | nil => intro m; simp
  | cons a rest ih =>
    intro m
    simp only [List.foldl_cons, List.map_cons, List.mem_cons]
    rw [ih, mem_keysKV_setKV]
    tauto

theorem mem_keysKV_buildMap {A K V : Type} [DecidableEq K] (key : A → K) (val : A → V)
    (l : List A) (k : K) : k ∈ keysKV (buildMap key val l) ↔ k ∈ l.map key := by
  rw [buildMap, mem_keysKV_foldl_setKV]
  simp

theorem lookupKV_foldl_setKV_not_mem {A K V : Type} [DecidableEq K] (key : A → K)
    (val : A → V) {k : K} : ∀ {l : List A}, k ∉ l.map key → ∀ (m : List (K × V)),
    lookupKV (l.foldl (fun m a => setKV m (key a) (val a)) m) k = lookupKV m k := by
  intro l
  induction l with
  | nil => intro _ m; rfl
  | cons a rest ih =>
    intro h m
    simp only [List.map_cons, List.mem_cons] at h
    push_neg at h
    simp only [List.foldl_cons]
    rw [ih h.2, lookupKV_setKV_ne _ _ _ _ h.1]

theorem lookupKV_buildMap_eq_none_iff {A K V : Type} [DecidableEq K] (key : A → K)
    (val : A → V) (l : List A) (k : K) :
    lookupKV (buildMap key val l) k = none ↔ k ∉ l.map key := by
  rw [lookupKV_eq_none_iff, mem_keysKV_buildMap]

theorem lookupKV_foldl_setKV_of_nodup {A K V : Type} [DecidableEq K] (key : A → K)
    (val : A → V) : ∀ {l : List A} {a : A}, (l.map key).Nodup → a ∈ l →
    ∀ (m : List (K × V)),
    lookupKV (l.foldl (fun m a => setKV m (key a) (val a)) m) (key a) = some (val a) := by
  intro l
  induction l with
  | nil => intro a _ ha; simp at ha
  | cons b rest ih =>
    intro a hnd ha m
    simp only [List.map_cons, List.nodup_cons] at hnd
    simp only [List.foldl_cons]
    rcases List.mem_cons.mp ha with h | h
    · subst h
      rw [lookupKV_foldl_setKV_not_mem key val hnd.1, lookupKV_setKV_self]
    · exact ih hnd.2 h _

theorem lookupKV_buildMap_of_nodup {A K V : Type} [DecidableEq K] (key : A → K)
    (val : A → V) {l : List A} {a : A} (hnd : (l.map key).Nodup) (ha : a ∈ l) :
    lookupKV (buildMap key val l) (key a) = some (val a) :=
  lookupKV_foldl_setKV_of_nodup key val hnd ha []

theorem mem_foldl_setKV {A K V : Type} [DecidableEq K] (key : A → K) (val : A → V)
    {kv : K × V} : ∀ {l : List A} {m : List (K × V)},
    kv ∈ l.foldl (fun m a => setKV m (key a) (val a)) m →
    kv ∈ m ∨ ∃ a ∈ l, kv = (key a, val a) := by
  intro l
  induction l with
  | nil => intro m h; exact Or.inl h
  | cons b rest ih =>
    intro m h
    simp only [List.foldl_cons] at h
    rcases ih h with h2 | h2
    · rcases mem_setKV h2 with h3 | h3
      · exact Or.inl h3
      · exact Or.inr ⟨b, List.mem_cons_self b rest, h3⟩
    · rcases h2 with ⟨a, ha, he⟩
      exact Or.inr ⟨a, List.mem_cons_of_mem _ ha, he⟩

theorem mem_buildMap {A K V : Type} [DecidableEq K] (key : A → K) (val : A → V)
    {l : List A} {kv : K × V} (h : kv ∈ buildMap key val l) :
    ∃ a ∈ l, kv = (key a, val a) := by
  rcases mem_foldl_setKV key val h with h2 | h2
  · simp at h2
  · exact h2

/- Lemmas about mapWithIndex. -/

theorem length_mapWithIndex {A B : Type} (f : ℕ → A → B) :
    ∀ (n : ℕ) (l : List A), (mapWithIndex f n l).length = l.length
  | _, [] => rfl
  | n, _ :: rest => by simp [mapWithIndex, length_mapWithIndex f (n + 1) rest]

theorem mem_of_mapWithIndex {A B : Type} {f : ℕ → A → B} :
    ∀ {n : ℕ} {l : List A} {b : B}, b ∈ mapWithIndex f n l → ∃ i a, a ∈ l ∧ b = f i a := by
  intro n l
  induction l generalizing n with
  | nil => intro b h; simp [mapWithIndex] at h
  | cons a rest ih =>
    intro b h
    simp only [mapWithIndex, List.mem_cons] at h
    rcases h with h | h
    · exact ⟨n, a, List.mem_cons_self a rest, h⟩
    · rcases ih h with ⟨i, a2, ha2, he⟩
      exact ⟨i, a2, List.mem_cons_of_mem _ ha2, he⟩

theorem exists_mapWithIndex_of_mem {A B : Type} {f : ℕ → A → B} {l : List A} {a : A}
    (h : a ∈ l) : ∀ n, ∃ i, f i a ∈ mapWithIndex f n l := by
  induction l with
  | nil => simp at h
  | cons b rest ih =>
    intro n
    rcases List.mem_cons.mp h with h2 | h2
    · subst h2; exact ⟨n, List.mem_cons_self _ _⟩
    · rcases ih h2 (n + 1) with ⟨i, hi⟩
      exact ⟨i, List.mem_cons_of_mem _ hi⟩

theorem pairwise_mapWithIndex {A B : Type} {R : A → A → Prop} {S : B → B → Prop}
    {f : ℕ → A → B} (hf : ∀ i j a b, R a b → S (f i a) (f j b)) :
    ∀ (n : ℕ) {l : List A}, List.Pairwise R l → List.Pairwise S (mapWithIndex f n l) := by
  intro n l
  induction l generalizing n with
  | nil => intro _; exact List.Pairwise.nil
  | cons a rest ih =>
    intro h
    rcases List.pairwise_cons.mp h with ⟨ha, ht⟩
    refine List.Pairwise.cons ?_ (ih (n + 1) ht)
    intro y hy
    rcases mem_of_mapWithIndex hy with ⟨j, b, hb, rfl⟩
    exact hf n j a b (ha b hb)

theorem map_mapWithIndex_eq_map {A B C : Type} (f : ℕ → A → B) (g : B → C) (h : A → C)
    (hgf : ∀ i a, g (f i a) = h a) : ∀ (n : ℕ) (l : List A),
    (mapWithIndex f n l).map g = l.map h
  | _, [] => rfl
  | n, a :: rest => by
    simp [mapWithIndex, hgf, map_mapWithIndex_eq_map f g h hgf (n + 1) rest]

/- Lemmas about round2. -/

theorem ratFloor_eq_intFloor (q : ℚ) : q.floor = ⌊q⌋ := by
  rw [Rat.floor_def', Rat.floor_def]

theorem round2_eq (q : ℚ) : round2 q = ((round (q * 100) : ℤ) : ℚ) / 100 := by
  rw [round2, round_eq, ratFloor_eq_intFloor]

@[simp]
theorem round2_zero : round2 0 = 0 := by
  rw [round2_eq]
  simp

theorem abs_round2_sub_le (q : ℚ) : |round2 q - q| ≤ 1 / 200 := by
  have h := abs_sub_round (q * 100)
  have h2 : round2 q - q = -((q * 100 - (round (q * 100) : ℚ)) / 100) := by
    rw [round2_eq]; ring
  rw [h2, abs_neg, abs_div, abs_of_pos (by norm_num : (0:ℚ) < 100)]
  linarith

theorem round2_mono {p q : ℚ} (h : p ≤ q) : round2 p ≤ round2 q := by
  rw [round2_eq, round2_eq]
  have hr : round (p * 100) ≤ round (q * 100) := by
    rw [round_eq, round_eq]
    exact Int.floor_mono (by linarith)
  have hr2 : ((round (p * 100) : ℤ) : ℚ) ≤ ((round (q * 100) : ℤ) : ℚ) := by
    exact_mod_cast hr
  linarith

theorem abs_sum_map_round2_sub (l : List ℚ) :
    |(l.map round2).sum - l.sum| ≤ (l.length : ℚ) / 200 := by
  induction l with
  | nil => simp
  | cons a t ih =>
    have h1 := abs_round2_sub_le a
    simp only [List.map_cons, List.sum_cons, List.length_cons]
    have e : (round2 a + (t.map round2).sum) - (a + t.sum)
        = (round2 a - a) + ((t.map round2).sum - t.sum) := by ring
    rw [e]
    have h3 := abs_add (round2 a - a) ((t.map round2).sum - t.sum)
    push_cast
    linarith

namespace MainJs

/-- Revenue contributed by a single line item in the model of src/src/main.js: the
injected revenue when the sku resolves, zero when the item is skipped. -/
def itemRev (productMap : List (String × Product)) (calcRevenue : LineItem → Product → ℚ)
    (it : LineItem) : ℚ :=
  match lookupKV productMap it.sku with
  | some p => calcRevenue it p
  | none => 0

theorem totalLineRevenue_eq_itemRev (products : List Product)
    (calcRevenue : LineItem → Product → ℚ) (records : List PurchaseRecord) :
    totalLineRevenue products calcRevenue records
      = (records.map (fun r =>
          (r.items.map (itemRev (buildProductMap products) calcRevenue)).sum)).sum := rfl

/-- Sum of the accumulated revenue over all entries of a seller-statistics map. -/
def revSum (stats : List (String × SellerAcc)) : ℚ :=
  (stats.map (fun kv => kv.2.revenue)).sum

theorem revenue_foldl_applyItem (pm : List (String × Product))
    (cR : LineItem → Product → ℚ) :
    ∀ (items : List LineItem) (s : SellerAcc),
    (items.foldl (applyItem pm cR) s).revenue
      = s.revenue + (items.map (itemRev pm cR)).sum := by
  intro items
  induction items with
  | nil => intro s; simp
  | cons it rest ih =>
    intro s
    simp only [List.foldl_cons, List.map_cons, List.sum_cons, ih]
    rcases hp : lookupKV pm it.sku with _ | p
    · simp [applyItem, itemRev, hp]
    · simp only [applyItem, itemRev, hp]
      ring

theorem keysKV_processPurchase (pm : List (String × Product))
    (cR : LineItem → Product → ℚ) (stats : List (String × SellerAcc))
    (r : PurchaseRecord) : keysKV (processPurchase pm cR stats r) = keysKV stats := by
  rcases hs : lookupKV stats r.seller_id with _ | s
  · simp [processPurchase, hs]
  · simp [processPurchase, hs, keysKV_updateKV]

theorem revSum_processPurchase (pm : List (String × Product))
    (cR : LineItem → Product → ℚ) (stats : List (String × SellerAcc))
    (r : PurchaseRecord) (h : r.seller_id ∈ keysKV stats) :
    revSum (processPurchase pm cR stats r)
      = revSum stats + (r.items.map (itemRev pm cR)).sum := by
  rcases exists_lookupKV h with ⟨v, hv⟩
  simp only [processPurchase, hv, revSum]
  rw [sum_map_updateKV (fun s => s.revenue) _ hv, revenue_foldl_applyItem]
  ring

theorem revSum_foldl_processPurchase (pm : List (String × Product))
    (cR : LineItem → Product → ℚ) :
    ∀ (records : List PurchaseRecord) (stats : List (String × SellerAcc)),
    (∀ r ∈ records, r.seller_id ∈ keysKV stats) →
    revSum (records.foldl (processPurchase pm cR) stats)
      = revSum stats
        + (records.map (fun r => (r.items.map (itemRev pm cR)).sum)).sum := by
  intro records
  induction records with
  | nil => intro stats _; simp
  | cons r rest ih =>
    intro stats hmem
    simp only [List.foldl_cons, List.map_cons, List.sum_cons]
    rw [ih (processPurchase pm cR stats r)
      (fun r2 hr2 => by
        rw [keysKV_processPurchase]
        exact hmem r2 (List.mem_cons_of_mem _ hr2))]
    rw [revSum_processPurchase pm cR stats r (hmem r (List.mem_cons_self r rest))]
    ring

theorem revSum_buildSellerMap (sellers : List Seller) :
    revSum (buildSellerMap sellers) = 0 := by
  apply List.sum_eq_zero
  intro x hx
  rcases List.mem_map.mp hx with ⟨kv, hkv, rfl⟩
  rcases mem_buildMap Seller.id initSellerStat hkv with ⟨a, _, rfl⟩
  rfl

theorem map_revenue_finalize (cB : ℕ → ℕ → RankedSeller → ℚ) (t : ℕ) :
    ∀ (l : List RankedSeller) (n : ℕ),
    (mapWithIndex (fun i s => finalizeSeller s (s.profit * cB i t s)) n l).map
        (fun o => o.revenue)
      = (l.map (fun s => s.revenue)).map round2 := by
  intro l
  induction l with
  | nil => intro n; rfl
  | cons a rest ih =>
    intro n
    simp only [mapWithIndex, List.map_cons, ih]
    rfl

theorem analyzeCore_revenue_map (d : SalesData) (cR : LineItem → Product → ℚ)
    (cB : ℕ → ℕ → RankedSeller → ℚ) :
    (analyzeCore d cR cB).map (fun o => o.revenue)
      = ((List.insertionSort profitGe
          ((((d.purchase_records.foldl
              (processPurchase (buildProductMap d.products) cR)
              (buildSellerMap d.sellers))).map Prod.snd).map rankSeller)).map
            (fun s => s.revenue)).map round2 := by
  rw [analyzeCore]
  exact map_revenue_finalize cB _ _ 0

theorem analyzeCore_revenue_sum_close (d : SalesData) (cR : LineItem → Product → ℚ)
    (cB : ℕ → ℕ → RankedSeller → ℚ)
    (hsellers : ∀ r ∈ d.purchase_records, r.seller_id ∈ d.sellers.map Seller.id) :
    |((analyzeCore d cR cB).map (fun o => o.revenue)).sum
        - totalLineRevenue d.products cR d.purchase_records|
      ≤ ((analyzeCore d cR cB).length : ℚ) / 200 := by
  have hkeys : ∀ r ∈ d.purchase_records,
      r.seller_id ∈ keysKV (buildSellerMap d.sellers) := by
    intro r hr
    rw [buildSellerMap, mem_keysKV_buildMap]
    exact hsellers r hr
  set pm := buildProductMap d.products with hpm
  set finalStats := d.purchase_records.foldl (processPurchase pm cR)
    (buildSellerMap d.sellers) with hfs
  set sorted := List.insertionSort profitGe
    ((finalStats.map Prod.snd).map rankSeller) with hsorted
  have hperm : List.Perm (sorted.map (fun s => s.revenue))
      (((finalStats.map Prod.snd).map rankSeller).map (fun s => s.revenue)) :=
    (List.perm_insertionSort profitGe _).map _
  have hsum1 : (sorted.map (fun s => s.revenue)).sum
      = revSum finalStats := by
    rw [hperm.sum_eq]
    rw [List.map_map, List.map_map]
    rfl
  have hsum2 : revSum finalStats
      = totalLineRevenue d.products cR d.purchase_records := by
    rw [hfs, revSum_foldl_processPurchase pm cR d.purchase_records _ hkeys,
      revSum_buildSellerMap, totalLineRevenue_eq_itemRev]
    simp
  have hlen : (analyzeCore d cR cB).length = sorted.length := by
    rw [analyzeCore, length_mapWithIndex]
  rw [analyzeCore_revenue_map]
  rw [← hpm, ← hfs, ← hsorted, ← hsum2, ← hsum1, hlen]
  have := abs_sum_map_round2_sub (sorted.map (fun s => s.revenue))
  simpa using this

end MainJs

namespace MainJs

theorem analyzeSalesData_ok {data : Option RawData} {opts : Option Options}
    {out : List SellerOut} (h : analyzeSalesData data opts = .ok out) :
    ∃ d cR cB, out = analyzeCore d cR cB := by
  rcases data with _ | ⟨c, ps, ss, rs⟩
  · exact absurd h (by simp [analyzeSalesData, checkData])
  rcases opts with _ | o
  · cases c <;> cases ps <;> cases ss <;> cases rs <;>
      exact absurd h (by simp [analyzeSalesData, checkData, checkOptions])
  cases c <;> cases ps <;> cases ss <;> cases rs
  case some.some.some.some =>
    simp only [analyzeSalesData, checkData, checkOptions, Except.ok.injEq] at h
    exact ⟨_, _, _, h.symm⟩
  all_goals exact absurd h (by simp [analyzeSalesData, checkData, checkOptions])

theorem analyzeCore_profit_chain (d : SalesData) (cR : LineItem → Product → ℚ)
    (cB : ℕ → ℕ → RankedSeller → ℚ) :
    List.Chain' (fun a b : SellerOut => b.profit ≤ a.profit) (analyzeCore d cR cB) := by
  rw [analyzeCore]
  apply List.Pairwise.chain'
  refine pairwise_mapWithIndex ?_ 0 (List.sorted_insertionSort profitGe _)
  intro i j a b hab
  exact round2_mono hab

theorem analyzeCore_top_products (d : SalesData) (cR : LineItem → Product → ℚ)
    (cB : ℕ → ℕ → RankedSeller → ℚ) :
    ∀ o ∈ analyzeCore d cR cB, o.top_products.length ≤ 10 ∧
      List.Chain' (fun a b : ProductStat => b.revenue ≤ a.revenue) o.top_products := by
  intro o ho
  rw [analyzeCore] at ho
  rcases mem_of_mapWithIndex ho with ⟨i, s, hs, rfl⟩
  have hs2 := ((List.perm_insertionSort profitGe _).mem_iff).mp hs
  rcases List.mem_map.mp hs2 with ⟨acc, hacc, rfl⟩
  constructor
  · simp only [finalizeSeller, rankSeller, List.length_map]
    exact List.length_take_le 10 _
  · simp only [finalizeSeller, rankSeller]
    apply List.Pairwise.chain'
    refine List.Pairwise.map _ ?_
      (List.Pairwise.sublist (List.take_sublist 10 _)
        (List.sorted_insertionSort prodRevGe _))
    intro a b hab
    exact round2_mono hab

theorem applyItem_unknown (products : List Product) (cR : LineItem → Product → ℚ)
    (s : SellerAcc) (it : LineItem) (hit : it.sku ∉ products.map Product.sku) :
    applyItem (buildProductMap products) cR s it = s := by
  have hnone : lookupKV (buildProductMap products) it.sku = none :=
    (lookupKV_buildMap_eq_none_iff Product.sku (fun p => p) products it.sku).mpr hit
  simp [applyItem, hnone]

theorem foldl_applyItem_filter (products : List Product) (cR : LineItem → Product → ℚ) :
    ∀ (items : List LineItem) (s : SellerAcc),
    items.foldl (applyItem (buildProductMap products) cR) s
      = (items.filter (fun it => decide (it.sku ∈ products.map Product.sku))).foldl
          (applyItem (buildProductMap products) cR) s := by
  intro items
  induction items with
  | nil => intro s; rfl
  | cons it rest ih =>
    intro s
    by_cases hit : it.sku ∈ products.map Product.sku
    · rw [List.filter_cons, if_pos (by simpa using hit)]
      simp only [List.foldl_cons]
      exact ih _
    · rw [List.filter_cons, if_neg (by simpa using hit)]
      simp only [List.foldl_cons]
      rw [applyItem_unknown products cR s it hit]
      exact ih s

theorem processPurchase_filter_items (products : List Product)
    (cR : LineItem → Product → ℚ) (stats : List (String × SellerAcc))
    (r : PurchaseRecord) :
    processPurchase (buildProductMap products) cR stats r
      = processPurchase (buildProductMap products) cR stats
          { r with items :=
              r.items.filter (fun it => decide (it.sku ∈ products.map Product.sku)) } := by
  have hfun : (fun s : SellerAcc =>
        List.foldl (applyItem (buildProductMap products) cR) s r.items)
      = fun s : SellerAcc =>
        List.foldl (applyItem (buildProductMap products) cR) s
          (r.items.filter (fun it => decide (it.sku ∈ products.map Product.sku))) :=
    funext (fun s => foldl_applyItem_filter products cR r.items s)
  rcases hv : lookupKV stats r.seller_id with _ | v
  · simp [processPurchase, hv]
  · simp only [processPurchase, hv]
    rw [hfun]

theorem processPurchase_unknown_seller (pm : List (String × Product))
    (cR : LineItem → Product → ℚ) (stats : List (String × SellerAcc))
    (r : PurchaseRecord) (h : lookupKV stats r.seller_id = none) :
    processPurchase pm cR stats r = stats := by
  simp [processPurchase, h]

theorem foldl_processPurchase_cleanse (products : List Product) (sellers : List Seller)
    (cR : LineItem → Product → ℚ) :
    ∀ (records : List PurchaseRecord) (stats : List (String × SellerAcc)),
    (∀ k, k ∈ keysKV stats ↔ k ∈ sellers.map Seller.id) →
    records.foldl (processPurchase (buildProductMap products) cR) stats
      = (cleanseRecords products sellers records).foldl
          (processPurchase (buildProductMap products) cR) stats := by
  intro records
  induction records with
  | nil => intro stats _; rfl
  | cons r rest ih =>
    intro stats hkeys
    have hkeys2 : ∀ k,
        k ∈ keysKV (processPurchase (buildProductMap products) cR stats r)
          ↔ k ∈ sellers.map Seller.id := by
      intro k
      rw [keysKV_processPurchase]
      exact hkeys k
    by_cases hr : r.seller_id ∈ sellers.map Seller.id
    · rw [cleanseRecords, List.filter_cons, if_pos (by simpa using hr), List.map_cons]
      simp only [List.foldl_cons]
      rw [← processPurchase_filter_items]
      exact (ih _ hkeys2).trans rfl
    · rw [cleanseRecords, List.filter_cons, if_neg (by simpa using hr)]
      simp only [List.foldl_cons]
      have hnone : lookupKV stats r.seller_id = none := by
        rw [lookupKV_eq_none_iff]
        intro hmem
        exact hr ((hkeys r.seller_id).mp hmem)
      rw [processPurchase_unknown_seller _ _ _ _ hnone]
      exact ih stats hkeys

theorem analyzeCore_cleanse (d : SalesData) (cR : LineItem → Product → ℚ)
    (cB : ℕ → ℕ → RankedSeller → ℚ) :
    analyzeCore d cR cB
      = analyzeCore
          { products := d.products, sellers := d.sellers,
            purchase_records :=
              cleanseRecords d.products d.sellers d.purchase_records } cR cB := by
  rw [analyzeCore, analyzeCore]
  rw [foldl_processPurchase_cleanse d.products d.sellers cR d.purchase_records
    (buildSellerMap d.sellers)
    (fun k => by rw [buildSellerMap, mem_keysKV_buildMap])]

theorem lookupKV_foldl_processPurchase_ne (pm : List (String × Product))
    (cR : LineItem → Product → ℚ) :
    ∀ (records : List PurchaseRecord) (stats : List (String × SellerAcc)) (k : String),
    (∀ r ∈ records, r.seller_id ≠ k) →
    lookupKV (records.foldl (processPurchase pm cR) stats) k = lookupKV stats k := by
  intro records
  induction records with
  | nil => intro stats k _; rfl
  | cons r rest ih =>
    intro stats k hne
    simp only [List.foldl_cons]
    rw [ih _ k (fun r2 h2 => hne r2 (List.mem_cons_of_mem _ h2))]
    rcases hv : lookupKV stats r.seller_id with _ | v
    · rw [processPurchase_unknown_seller _ _ _ _ hv]
    · simp only [processPurchase, hv]
      exact lookupKV_updateKV_ne _ stats r.seller_id k
        (fun he => hne r (List.mem_cons_self r rest) he.symm)

end MainJs

theorem mem_keysKV_of_lookupKV {K V : Type} [DecidableEq K] {l : List (K × V)} {k : K}
    {v : V} (h : lookupKV l k = some v) : k ∈ keysKV l := by
  by_contra hc
  rw [← lookupKV_eq_none_iff] at hc
  rw [h] at hc
  cases hc

namespace Part000

theorem processItem_ok (pm : List (String × Product)) (cR : LineItem → Product → ℚ)
    (s : SellerStat) (it : LineItem) (h : it.sku ∈ keysKV pm) :
    ∃ s2, processItem pm cR s it = .ok s2 := by
  rcases exists_lookupKV h with ⟨p, hp⟩
  simp only [processItem, hp]
  exact ⟨_, rfl⟩

theorem foldItems_ok (pm : List (String × Product)) (cR : LineItem → Product → ℚ) :
    ∀ (items : List LineItem) (s : SellerStat), (∀ it ∈ items, it.sku ∈ keysKV pm) →
    ∃ s2, foldItems pm cR s items = .ok s2 := by
  intro items
  induction items with
  | nil => intro s _; exact ⟨s, rfl⟩
  | cons it rest ih =>
    intro s hmem
    rcases processItem_ok pm cR s it (hmem it (List.mem_cons_self it rest)) with ⟨s2, hs2⟩
    rcases ih s2 (fun it2 h2 => hmem it2 (List.mem_cons_of_mem _ h2)) with ⟨s3, hs3⟩
    exact ⟨s3, by simp [foldItems, hs2, hs3]⟩

theorem foldItems_error (pm : List (String × Product)) (cR : LineItem → Product → ℚ) :
    ∀ (items : List LineItem) (s : SellerStat), (∃ it ∈ items, it.sku ∉ keysKV pm) →
    foldItems pm cR s items = .error .typeError := by
  intro items
  induction items with
  | nil => intro s h; simp at h
  | cons it rest ih =>
    intro s hbad
    by_cases hit : it.sku ∈ keysKV pm
    · rcases processItem_ok pm cR s it hit with ⟨s2, hs2⟩
      have hrest : ∃ it2 ∈ rest, it2.sku ∉ keysKV pm := by
        rcases hbad with ⟨it0, hit0, hnot⟩
        rcases List.mem_cons.mp hit0 with he | he
        · exact absurd hit (he ▸ hnot)
        · exact ⟨it0, he, hnot⟩
      simp only [foldItems, hs2]
      exact ih s2 hrest
    · have hnone : lookupKV pm it.sku = none := (lookupKV_eq_none_iff pm it.sku).mpr hit
      simp [foldItems, processItem, hnone]

theorem processRecord_keys {pm : List (String × Product)} {cR : LineItem → Product → ℚ}
    {stats stats2 : List (String × SellerStat)} {r : PurchaseRecord}
    (h : processRecord pm cR stats r = .ok stats2) : keysKV stats2 = keysKV stats := by
  rcases hs : lookupKV stats r.seller_id with _ | s0
  · simp [processRecord, hs] at h
  · rcases hf : foldItems pm cR (bumpReceipt s0 r.total_amount) r.items with e | s2
    · simp [processRecord, hs, hf] at h
    · simp only [processRecord, hs, hf, Except.ok.injEq] at h
      rw [← h]
      exact keysKV_updateKV _ stats r.seller_id

theorem foldRecords_error (pm : List (String × Product)) (cR : LineItem → Product → ℚ) :
    ∀ (records : List PurchaseRecord) (stats : List (String × SellerStat)),
    ((∃ r ∈ records, r.seller_id ∉ keysKV stats) ∨
      (∃ r ∈ records, ∃ it ∈ r.items, it.sku ∉ keysKV pm)) →
    ∃ e, foldRecords pm cR stats records = .error e := by
  intro records
  induction records with
  | nil => intro stats h; simp at h
  | cons r rest ih =>
    intro stats hbad
    rcases hpr : processRecord pm cR stats r with e | stats2
    · exact ⟨e, by simp [foldRecords, hpr]⟩
    · have hkeys := processRecord_keys hpr
      have hlook : ∃ s0, lookupKV stats r.seller_id = some s0 := by
        rcases hs : lookupKV stats r.seller_id with _ | s0
        · simp [processRecord, hs] at hpr
        · exact ⟨s0, rfl⟩
      rcases hlook with ⟨s0, hs0⟩
      have hseller : r.seller_id ∈ keysKV stats := mem_keysKV_of_lookupKV hs0
      have hgood : ∀ it ∈ r.items, it.sku ∈ keysKV pm := by
        intro it hit
        by_contra hc
        have herr := foldItems_error pm cR r.items (bumpReceipt s0 r.total_amount)
          ⟨it, hit, hc⟩
        simp [processRecord, hs0, herr] at hpr
      have hrest : (∃ r2 ∈ rest, r2.seller_id ∉ keysKV stats2) ∨
          (∃ r2 ∈ rest, ∃ it ∈ r2.items, it.sku ∉ keysKV pm) := by
        rcases hbad with ⟨r0, hr0, hnot⟩ | ⟨r0, hr0, it, hit, hnot⟩
        · rcases List.mem_cons.mp hr0 with he | he
          · exact absurd hseller (he ▸ hnot)
          · exact Or.inl ⟨r0, he, by rw [hkeys]; exact hnot⟩
        · rcases List.mem_cons.mp hr0 with he | he
          · subst he
            exact absurd (hgood it hit) hnot
          · exact Or.inr ⟨r0, he, it, hit, hnot⟩
      rcases ih stats2 hrest with ⟨e, he⟩
      exact ⟨e, by simp [foldRecords, hpr, he]⟩

theorem foldRecords_ok (pm : List (String × Product)) (cR : LineItem → Product → ℚ) :
    ∀ (records : List PurchaseRecord) (stats : List (String × SellerStat)),
    (∀ r ∈ records, r.seller_id ∈ keysKV stats) →
    (∀ r ∈ records, ∀ it ∈ r.items, it.sku ∈ keysKV pm) →
    ∃ stats2, foldRecords pm cR stats records = .ok stats2 ∧
      keysKV stats2 = keysKV stats ∧
      ∀ k, (∀ r ∈ records, r.seller_id ≠ k) → lookupKV stats2 k = lookupKV stats k := by
  intro records
  induction records with
  | nil => intro stats _ _; exact ⟨stats, rfl, rfl, fun _ _ => rfl⟩
  | cons r rest ih =>
    intro stats hsellers hitems
    rcases exists_lookupKV (hsellers r (List.mem_cons_self r rest)) with ⟨s0, hs0⟩
    rcases foldItems_ok pm cR r.items (bumpReceipt s0 r.total_amount)
        (hitems r (List.mem_cons_self r rest)) with ⟨s2, hs2⟩
    have hpr : processRecord pm cR stats r
        = .ok (updateKV (fun _ => s2) stats r.seller_id) := by
      simp [processRecord, hs0, hs2]
    have hkeys : keysKV (updateKV (fun _ => s2) stats r.seller_id) = keysKV stats :=
      keysKV_updateKV _ stats r.seller_id
    rcases ih (updateKV (fun _ => s2) stats r.seller_id)
        (fun r2 h2 => by
          rw [hkeys]
          exact hsellers r2 (List.mem_cons_of_mem _ h2))
        (fun r2 h2 => hitems r2 (List.mem_cons_of_mem _ h2)) with
      ⟨stats3, hfold, hkeys3, hlook⟩
    refine ⟨stats3, by simp [foldRecords, hpr, hfold], by rw [hkeys3, hkeys], ?_⟩
    intro k hne
    rw [hlook k (fun r2 h2 => hne r2 (List.mem_cons_of_mem _ h2))]
    exact lookupKV_updateKV_ne _ stats r.seller_id k
      (fun he => hne r (List.mem_cons_self r rest) he.symm)

theorem analyzeSalesData_okP {data : Option RawData} {opts : Option Options}
    {out : List SellerOut} (h : analyzeSalesData data opts = .ok out) :
    ∃ d cR cB, analyzeCore d cR cB = .ok out := by
  rcases data with _ | ⟨c, ps, ss, rs⟩
  · exact absurd h (by simp [analyzeSalesData])
  rcases ps with _ | ps
  · exact absurd h (by simp [analyzeSalesData])
  rcases ss with _ | ss
  · exact absurd h (by simp [analyzeSalesData])
  rcases rs with _ | rs
  · exact absurd h (by simp [analyzeSalesData])
  by_cases hlen : rs.length = 0
  · rw [analyzeSalesData] at h
    simp [hlen] at h
  rcases opts with _ | ⟨cRo, cBo⟩
  · rw [analyzeSalesData] at h
    simp [hlen] at h
  rcases cRo with _ | cR
  · rw [analyzeSalesData] at h
    simp [hlen] at h
  rcases cBo with _ | cB
  · rw [analyzeSalesData] at h
    simp [hlen] at h
  rw [analyzeSalesData] at h
  simp only [if_neg hlen] at h
  exact ⟨_, _, _, h⟩

theorem analyzeCore_ok_shape {d : SalesData} {cR : LineItem → Product → ℚ}
    {cB : ℕ → ℕ → SellerStat → ℚ} {out : List SellerOut}
    (h : analyzeCore d cR cB = .ok out) :
    ∃ stats, foldRecords (buildMap Product.sku (fun p => p) d.products) cR
        (buildMap Seller.id initSellerStat d.sellers) d.purchase_records = .ok stats ∧
      out = mapWithIndex
        (fun i s => finalizeSeller s
          (cB i (List.insertionSort profitGe (stats.map Prod.snd)).length s)) 0
        (List.insertionSort profitGe (stats.map Prod.snd)) := by
  rw [analyzeCore] at h
  rcases hfold : foldRecords (buildMap Product.sku (fun p => p) d.products) cR
      (buildMap Seller.id initSellerStat d.sellers) d.purchase_records with e | stats
  · rw [hfold] at h
    cases h
  · rw [hfold] at h
    cases h
    exact ⟨stats, rfl, rfl⟩

end Part000

namespace Part000

theorem analyzeCore_ok_profit_chain {d : SalesData} {cR : LineItem → Product → ℚ}
    {cB : ℕ → ℕ → SellerStat → ℚ} {out : List SellerOut}
    (h : analyzeCore d cR cB = .ok out) :
    List.Chain' (fun a b : SellerOut => b.profit ≤ a.profit) out := by
  rcases analyzeCore_ok_shape h with ⟨stats, _, rfl⟩
  apply List.Pairwise.chain'
  refine pairwise_mapWithIndex ?_ 0 (List.sorted_insertionSort profitGe _)
  intro i j a b hab
  exact round2_mono hab

theorem analyzeCore_ok_top_products {d : SalesData} {cR : LineItem → Product → ℚ}
    {cB : ℕ → ℕ → SellerStat → ℚ} {out : List SellerOut}
    (h : analyzeCore d cR cB = .ok out) :
    ∀ o ∈ out, o.top_products.length ≤ 10 ∧
      List.Chain' (fun a b : String × ℕ => b.2 ≤ a.2) o.top_products := by
  rcases analyzeCore_ok_shape h with ⟨stats, _, rfl⟩
  intro o ho
  rcases mem_of_mapWithIndex ho with ⟨i, s, hs, rfl⟩
  constructor
  · simp only [finalizeSeller]
    exact List.length_take_le 10 _
  · simp only [finalizeSeller]
    exact List.Pairwise.chain'
      (List.Pairwise.sublist (List.take_sublist 10 _)
        (List.sorted_insertionSort qtyGe _))

theorem calculateBonusByProfit_profit_zero (i t : ℕ) (s : SellerStat)
    (h : s.profit = 0) : calculateBonusByProfit i t s = 0 := by
  simp [calculateBonusByProfit, h]

end Part000

namespace MainJs

theorem lookupKV_buildSellerMap {sellers : List Seller} {s : Seller}
    (hnd : (sellers.map Seller.id).Nodup) (hs : s ∈ sellers) :
    lookupKV (buildSellerMap sellers) s.id = some (initSellerStat s) :=
  lookupKV_buildMap_of_nodup Seller.id initSellerStat hnd hs

end MainJs

/- Concrete inputs used by witnesses and counterexamples. -/

def productP1 : Product := { sku := "P1", name := "Widget", purchase_price := 10 }

def productP1b : Product := { sku := "P1", name := "WidgetB", purchase_price := 5 }

def productA : Product := { sku := "A", name := "Cheap", purchase_price := 0 }

def productB : Product := { sku := "B", name := "Dear", purchase_price := 0 }

def sellerS1 : Seller := { id := "s1", first_name := "Alice", last_name := "Smith" }

def sellerS2 : Seller := { id := "s2", first_name := "Bob", last_name := "Jones" }

def itemP1 : LineItem := { sku := "P1", discount := 0, sale_price := 20, quantity := 2 }

def itemP1one : LineItem := { sku := "P1", discount := 0, sale_price := 20, quantity := 1 }

def itemA : LineItem := { sku := "A", discount := 0, sale_price := 1, quantity := 5 }

def itemB : LineItem := { sku := "B", discount := 0, sale_price := 100, quantity := 2 }

def itemGhostSku : LineItem := { sku := "NOPE", discount := 0, sale_price := 7, quantity := 1 }

def recordR1 : PurchaseRecord := { seller_id := "s1", total_amount := 40, items := [itemP1] }

def recordR2 : PurchaseRecord := { seller_id := "s2", total_amount := 20, items := [itemP1one] }

def recordBig : PurchaseRecord := { seller_id := "s1", total_amount := 1000, items := [itemP1] }

def recordAB : PurchaseRecord := { seller_id := "s1", total_amount := 205, items := [itemA, itemB] }

def recordGhostSeller : PurchaseRecord :=
  { seller_id := "ghost", total_amount := 99, items := [itemP1] }

def recordGhostItem : PurchaseRecord :=
  { seller_id := "s1", total_amount := 47, items := [itemP1, itemGhostSku] }

/-- Builds a raw data object with all four collections present (customers empty). -/
def rawOf (ps : List Product) (ss : List Seller) (rs : List PurchaseRecord) : RawData :=
  { customers := some [], products := some ps, sellers := some ss,
    purchase_records := some rs }

def mainDefaults : MainJs.Options :=
  { calculateRevenue := some MainJs.calculateSimpleRevenue,
    calculateBonus := some MainJs.calculateBonusByProfit }

def partDefaults : Part000.Options :=
  { calculateRevenue := some Part000.calculateSimpleRevenue,
    calculateBonus := some Part000.calculateBonusByProfit }

def rankedEx : MainJs.RankedSeller :=
  { seller_id := "s1", name := "Alice Smith", revenue := 40, profit := 20,
    sales_count := 2, top_products := [] }

def statEx : Part000.SellerStat :=
  { seller_id := "s1", name := "Alice Smith", revenue := 40, profit := 20,
    sales_count := 1, products_sold := [] }

/- Evaluation helpers: round2 is the identity on amounts that are whole numbers of
cents, and the concrete name concatenations. -/

theorem round2_exact (n : ℤ) {q : ℚ} (h : q * 100 = (n : ℚ)) : round2 q = q := by
  rw [round2, ratFloor_eq_intFloor, h]
  have h0 : ⌊(n : ℚ) + 1 / 2⌋ = n := by
    rw [Int.floor_int_add]
    have h1 : ⌊(1 : ℚ) / 2⌋ = 0 := by
      rw [Int.floor_eq_zero_iff]
      constructor <;> norm_num
    rw [h1, add_zero]
  rw [h0]
  have h2 : (n : ℚ) = q * 100 := h.symm
  rw [h2]
  ring

theorem str_alice : "Alice" ++ " " ++ "Smith" = "Alice Smith" := rfl

theorem str_bob : "Bob" ++ " " ++ "Jones" = "Bob Jones" := rfl

theorem round2_v1 : round2 1 = 1 := round2_exact 100 (by norm_num)

theorem round2_v3 : round2 3 = 3 := round2_exact 300 (by norm_num)

theorem round2_v10 : round2 10 = 10 := round2_exact 1000 (by norm_num)

theorem round2_v20 : round2 20 = 20 := round2_exact 2000 (by norm_num)

theorem round2_v30 : round2 30 = 30 := round2_exact 3000 (by norm_num)

theorem round2_v40 : round2 40 = 40 := round2_exact 4000 (by norm_num)

theorem round2_v205 : round2 205 = 205 := round2_exact 20500 (by norm_num)

theorem round2_v1000 : round2 1000 = 1000 := round2_exact 100000 (by norm_num)

theorem round2_v45 : round2 (9 / 2) = 9 / 2 := round2_exact 450 (by norm_num)

theorem round2_v3075 : round2 (123 / 4) = 123 / 4 := round2_exact 3075 (by norm_num)

/- The claims. -/

/-- C2: both default bonus strategies evaluate their rank rules in the fixed source
order first to 15 percent, second or third to 10 percent, last to 0 percent, else to
5 percent of profit; hence index 0 always gets the 15 percent rule even when it is also
last, an index 1 or 2 that is also last gets the 10 percent rule rather than 0, and the
last-place 0 only applies from index 3 on. The main.js strategy returns the fraction,
the part_000 strategy returns the amount, profit times the fraction. -/
theorem c2_bonus_rule_order :
    ∀ (i t : ℕ) (sM : MainJs.RankedSeller) (sP : Part000.SellerStat),
      (MainJs.calculateBonusByProfit 0 t sM = 0.15 ∧
        Part000.calculateBonusByProfit 0 t sP = sP.profit * 0.15) ∧
      ((i = 1 ∨ i = 2) →
        MainJs.calculateBonusByProfit i t sM = 0.1 ∧
        Part000.calculateBonusByProfit i t sP = sP.profit * 0.1) ∧
      (3 ≤ i → i = t - 1 →
        MainJs.calculateBonusByProfit i t sM = 0 ∧
        Part000.calculateBonusByProfit i t sP = 0) ∧
      (3 ≤ i → i ≠ t - 1 →
        MainJs.calculateBonusByProfit i t sM = 0.05 ∧
        Part000.calculateBonusByProfit i t sP = sP.profit * 0.05) := by
  intro i t sM sP
  refine ⟨⟨?_, ?_⟩, ?_, ?_, ?_⟩
  · simp [MainJs.calculateBonusByProfit]
  · simp [Part000.calculateBonusByProfit]
  · rintro (rfl | rfl)
    · exact ⟨by simp [MainJs.calculateBonusByProfit],
        by simp [Part000.calculateBonusByProfit]⟩
    · exact ⟨by simp [MainJs.calculateBonusByProfit],
        by simp [Part000.calculateBonusByProfit]⟩
  · intro h3 hlast
    constructor
    · simp only [MainJs.calculateBonusByProfit]
      rw [if_neg (by omega), if_neg (by omega : ¬(i = 1 ∨ i = 2)), if_pos hlast]
    · simp only [Part000.calculateBonusByProfit]
      rw [if_neg (by omega), if_neg (by omega : ¬(i = 1 ∨ i = 2)), if_pos hlast]
  · intro h3 hlast
    constructor
    · simp only [MainJs.calculateBonusByProfit]
      rw [if_neg (by omega), if_neg (by omega : ¬(i = 1 ∨ i = 2)), if_neg hlast]
    · simp only [Part000.calculateBonusByProfit]
      rw [if_neg (by omega), if_neg (by omega : ¬(i = 1 ∨ i = 2)), if_neg hlast]

/-- Witness for C2 at concrete ranks: index 1 of 2 sellers is also last yet gets the
10 percent rule, index 3 of 4 is last and gets 0, index 3 of 5 gets 5 percent. -/
theorem c2_bonus_rule_order_witness :
    MainJs.calculateBonusByProfit 1 2 rankedEx = 0.1 ∧
    Part000.calculateBonusByProfit 2 3 statEx = statEx.profit * 0.1 ∧
    MainJs.calculateBonusByProfit 3 4 rankedEx = 0 ∧
    MainJs.calculateBonusByProfit 3 5 rankedEx = 0.05 := by
  refine ⟨?_, ?_, ?_, ?_⟩
  · exact ((c2_bonus_rule_order 1 2 rankedEx statEx).2.1 (Or.inl rfl)).1
  · exact ((c2_bonus_rule_order 2 3 rankedEx statEx).2.1 (Or.inr rfl)).2
  · exact ((c2_bonus_rule_order 3 4 rankedEx statEx).2.2.1 (by decide) (by decide)).1
  · exact ((c2_bonus_rule_order 3 5 rankedEx statEx).2.2.2 (by decide) (by decide)).1

/-- C10: the checkData helper of src/src/main.js destructures a customers field and
throws when it is not a present array, although customers appears nowhere in the data
model and is never used; any data object without an array-valued customers field is
rejected regardless of the options. -/
theorem c10_missing_customers_rejected :
    ∀ (d : RawData) (opts : Option MainJs.Options), d.customers = none →
      MainJs.analyzeSalesData (some d) opts = .error .invalidData := by
  intro d opts h
  rcases d with ⟨c, ps, ss, rs⟩
  cases c with
  | none => rfl
  | some c2 => exact (Option.some_ne_none c2 h).elim

/-- Witness for C10: a data object holding exactly the three documented collections,
with customers absent, is rejected by the main.js variant. -/
theorem c10_missing_customers_rejected_witness :
    MainJs.analyzeSalesData
        (some { customers := none, products := some [productP1],
                sellers := some [sellerS1], purchase_records := some [recordR1] })
        (some mainDefaults)
      = .error .invalidData :=
  c10_missing_customers_rejected _ _ rfl

/-- C5: on the same valid one-seller input with the default strategies of each file,
the two source variants produce different outputs: main.js reports sales_count 2 (units
sold) while part_000 reports sales_count 1 (receipts), and their top_products have
different shapes. The convention difference behind it is also recorded: at rank 0 the
main.js strategy returns the fraction 0.15, which analyzeSalesData multiplies by the
profit, while the part_000 strategy returns the finished amount 3 for the same seller
data, used as the bonus directly. -/
theorem c5_variant_divergence :
    MainJs.analyzeSalesData (some (rawOf [productP1] [sellerS1] [recordR1]))
        (some mainDefaults)
      = .ok [{ seller_id := "s1", name := "Alice Smith", revenue := 40, profit := 20,
               bonus := 3, sales_count := 2,
               top_products := [{ product_id := "P1", name := "Widget", quantity := 2,
                                  revenue := 40 }] }] ∧
    Part000.analyzeSalesData (some (rawOf [productP1] [sellerS1] [recordR1]))
        (some partDefaults)
      = .ok [{ seller_id := "s1", name := "Alice Smith", revenue := 40, profit := 20,
               sales_count := 1, top_products := [("P1", 2)], bonus := 3 }] ∧
    (2 : ℕ) ≠ 1 ∧
    MainJs.calculateBonusByProfit 0 1 rankedEx = 0.15 ∧
    Part000.calculateBonusByProfit 0 1 statEx = 3 ∧
    ValidInput { products := [productP1], sellers := [sellerS1],
                 purchase_records := [recordR1] } := by
  refine ⟨?_, ?_, by decide, by norm_num [MainJs.calculateBonusByProfit],
    by norm_num [Part000.calculateBonusByProfit, statEx], by decide⟩
  · norm_num [MainJs.analyzeSalesData, MainJs.checkData, MainJs.checkOptions, rawOf,
      MainJs.analyzeCore, MainJs.buildProductMap, MainJs.buildSellerMap, buildMap,
      List.foldl_cons, List.foldl_nil, setKV, MainJs.initSellerStat, productP1, sellerS1,
      recordR1, itemP1, MainJs.processPurchase, lookupKV, MainJs.applyItem, updateKV,
      MainJs.calculateSimpleRevenue, MainJs.rankSeller, List.insertionSort,
      List.orderedInsert, MainJs.profitGe, MainJs.prodRevGe, mapWithIndex,
      MainJs.finalizeSeller, mainDefaults, Option.getD, MainJs.calculateBonusByProfit,
      List.map_cons, List.map_nil, List.take, round2_v40, round2_v20, round2_v3,
      str_alice]
  · norm_num [Part000.analyzeSalesData, Part000.analyzeCore, Part000.foldRecords,
      Part000.processRecord, Part000.bumpReceipt, Part000.foldItems, Part000.processItem,
      Part000.initSellerStat, Part000.finalizeSeller, Part000.calculateSimpleRevenue,
      Part000.calculateBonusByProfit, Part000.profitGe, Part000.qtyGe, buildMap, setKV,
      lookupKV, updateKV, mapWithIndex, List.insertionSort, List.orderedInsert,
      List.take, partDefaults, rawOf, List.foldl_cons, List.foldl_nil, productP1,
      sellerS1, recordR1, itemP1, round2_v40, round2_v20, round2_v3, str_alice]

/-- Counterexample for C6: the claim promises success with no options at all, but the
main.js variant throws from checkOptions when the options object is absent, and the
part_000 variant throws when either strategy is omitted, on perfectly well-shaped data. -/
theorem c6_counterexample :
    MainJs.analyzeSalesData (some (rawOf [productP1] [sellerS1] [recordR1])) none
      = .error .invalidOptions ∧
    Part000.analyzeSalesData (some (rawOf [productP1] [sellerS1] [recordR1]))
        (some { calculateRevenue := some Part000.calculateSimpleRevenue,
                calculateBonus := none })
      = .error .missingFunctions := ⟨rfl, rfl⟩

/-- C6 amended: in main.js each strategy field of a provided options object is optional
and defaults to calculateSimpleRevenue and calculateBonusByProfit with identical
behaviour, but the options object itself is mandatory (no options always errors), and
in part_000 both strategies are mandatory (omitting the options object or either
strategy always errors). -/
theorem c6_amended_defaults :
    (∀ d : Option RawData,
      MainJs.analyzeSalesData d
          (some { calculateRevenue := none, calculateBonus := none })
        = MainJs.analyzeSalesData d (some mainDefaults)) ∧
    (∀ (d : Option RawData) (cB : ℕ → ℕ → MainJs.RankedSeller → ℚ),
      MainJs.analyzeSalesData d
          (some { calculateRevenue := none, calculateBonus := some cB })
        = MainJs.analyzeSalesData d
            (some { calculateRevenue := some MainJs.calculateSimpleRevenue,
                    calculateBonus := some cB })) ∧
    (∀ (d : Option RawData) (cR : LineItem → Product → ℚ),
      MainJs.analyzeSalesData d
          (some { calculateRevenue := some cR, calculateBonus := none })
        = MainJs.analyzeSalesData d
            (some { calculateRevenue := some cR,
                    calculateBonus := some MainJs.calculateBonusByProfit })) ∧
    (∀ d : Option RawData, ∃ e, MainJs.analyzeSalesData d none = .error e) ∧
    (∀ d : Option RawData, ∃ e, Part000.analyzeSalesData d none = .error e) ∧
    (∀ (d : Option RawData) (cBo : Option (ℕ → ℕ → Part000.SellerStat → ℚ)),
      ∃ e, Part000.analyzeSalesData d
          (some { calculateRevenue := none, calculateBonus := cBo }) = .error e) ∧
    (∀ (d : Option RawData) (cRo : Option (LineItem → Product → ℚ)),
      ∃ e, Part000.analyzeSalesData d
          (some { calculateRevenue := cRo, calculateBonus := none }) = .error e) := by
  refine ⟨?_, ?_, ?_, ?_, ?_, ?_, ?_⟩
  · intro d
    rcases d with _ | ⟨c, ps, ss, rs⟩
    · rfl
    · cases c <;> cases ps <;> cases ss <;> cases rs <;> rfl
  · intro d cB
    rcases d with _ | ⟨c, ps, ss, rs⟩
    · rfl
    · cases c <;> cases ps <;> cases ss <;> cases rs <;> rfl
  · intro d cR
    rcases d with _ | ⟨c, ps, ss, rs⟩
    · rfl
    · cases c <;> cases ps <;> cases ss <;> cases rs <;> rfl
  · intro d
    rcases d with _ | ⟨c, ps, ss, rs⟩
    · exact ⟨_, rfl⟩
    · cases c <;> cases ps <;> cases ss <;> cases rs <;> exact ⟨_, rfl⟩
  · intro d
    rcases d with _ | ⟨c, ps, ss, rs⟩
    · exact ⟨_, rfl⟩
    rcases ss with _ | ss
    · exact ⟨_, rfl⟩
    rcases ps with _ | ps
    · exact ⟨_, rfl⟩
    rcases rs with _ | rs
    · exact ⟨_, rfl⟩
    by_cases h : rs.length = 0
    · exact ⟨.invalidInput, by simp [Part000.analyzeSalesData, h]⟩
    · exact ⟨.missingFunctions, by simp [Part000.analyzeSalesData, h]⟩
  · intro d cBo
    rcases d with _ | ⟨c, ps, ss, rs⟩
    · exact ⟨_, rfl⟩
    rcases ss with _ | ss
    · exact ⟨_, rfl⟩
    rcases ps with _ | ps
    · exact ⟨_, rfl⟩
    rcases rs with _ | rs
    · exact ⟨_, rfl⟩
    by_cases h : rs.length = 0
    · exact ⟨.invalidInput, by simp [Part000.analyzeSalesData, h]⟩
    · exact ⟨.missingFunctions, by simp [Part000.analyzeSalesData, h]⟩
  · intro d cRo
    rcases d with _ | ⟨c, ps, ss, rs⟩
    · exact ⟨_, rfl⟩
    rcases ss with _ | ss
    · exact ⟨_, rfl⟩
    rcases ps with _ | ps
    · exact ⟨_, rfl⟩
    rcases rs with _ | rs
    · exact ⟨_, rfl⟩
    by_cases h : rs.length = 0
    · exact ⟨.invalidInput, by simp [Part000.analyzeSalesData, h]⟩
    · rcases cRo with _ | cR
      · exact ⟨.missingFunctions, by simp [Part000.analyzeSalesData, h]⟩
      · exact ⟨.missingFunctions, by simp [Part000.analyzeSalesData, h]⟩

/-- Counterexample for C8: two products share the SKU P1, yet the main.js variant
returns a successful result instead of failing; the later product silently overwrote
the earlier one, visible in the profit 30 = 40 - 2 * 5 computed from the purchase
price of the second product and in the top product carrying the second products name.
The part_000 variant also proceeds without error on the same input. -/
theorem c8_counterexample :
    MainJs.analyzeSalesData (some (rawOf [productP1, productP1b] [sellerS1] [recordR1]))
        (some mainDefaults)
      = .ok [{ seller_id := "s1", name := "Alice Smith", revenue := 40, profit := 30,
               bonus := 4.5, sales_count := 2,
               top_products := [{ product_id := "P1", name := "WidgetB", quantity := 2,
                                  revenue := 40 }] }] ∧
    Part000.analyzeSalesData (some (rawOf [productP1, productP1b] [sellerS1] [recordR1]))
        (some partDefaults)
      = .ok [{ seller_id := "s1", name := "Alice Smith", revenue := 40, profit := 30,
               sales_count := 1, top_products := [("P1", 2)], bonus := 4.5 }] := by
  constructor
  · norm_num [MainJs.analyzeSalesData, MainJs.checkData, MainJs.checkOptions, rawOf,
      MainJs.analyzeCore, MainJs.buildProductMap, MainJs.buildSellerMap, buildMap,
      List.foldl_cons, List.foldl_nil, setKV, MainJs.initSellerStat, productP1,
      productP1b, sellerS1, recordR1, itemP1, MainJs.processPurchase, lookupKV,
      MainJs.applyItem, updateKV, MainJs.calculateSimpleRevenue, MainJs.rankSeller,
      List.insertionSort, List.orderedInsert, MainJs.profitGe, MainJs.prodRevGe,
      mapWithIndex, MainJs.finalizeSeller, mainDefaults, Option.getD,
      MainJs.calculateBonusByProfit, List.map_cons, List.map_nil, List.take,
      round2_v40, round2_v30, round2_v45, str_alice]
  · norm_num [Part000.analyzeSalesData, Part000.analyzeCore, Part000.foldRecords,
      Part000.processRecord, Part000.bumpReceipt, Part000.foldItems, Part000.processItem,
      Part000.initSellerStat, Part000.finalizeSeller, Part000.calculateSimpleRevenue,
      Part000.calculateBonusByProfit, Part000.profitGe, Part000.qtyGe, buildMap, setKV,
      lookupKV, updateKV, mapWithIndex, List.insertionSort, List.orderedInsert,
      List.take, partDefaults, rawOf, List.foldl_cons, List.foldl_nil, productP1,
      productP1b, sellerS1, recordR1, itemP1, round2_v40, round2_v30, round2_v45,
      str_alice]

/-- C8 amended: index construction silently overwrites on duplicate keys instead of
failing; in particular the main.js variant never returns an error once the data object
with its four array fields and any options object are present, duplicate SKUs or
seller ids included. -/
theorem c8_amended_silent_overwrite :
    ∀ (c : List String) (ps : List Product) (ss : List Seller)
      (rs : List PurchaseRecord) (o : MainJs.Options),
      ∃ out, MainJs.analyzeSalesData (some ⟨some c, some ps, some ss, some rs⟩)
        (some o) = .ok out := by
  intro c ps ss rs o
  exact ⟨_, rfl⟩

theorem s1_ne_s2 : ("s1" : String) ≠ "s2" := by decide

theorem s2_ne_s1 : ("s2" : String) ≠ "s1" := by decide

theorem strA_ne_B : ("A" : String) ≠ "B" := by decide

theorem strB_ne_A : ("B" : String) ≠ "A" := by decide

/- A concrete two-seller run of both variants, shared by several witnesses. -/

def mainOutTwoA : MainJs.SellerOut :=
  { seller_id := "s1", name := "Alice Smith", revenue := 40, profit := 20, bonus := 3,
    sales_count := 2,
    top_products := [{ product_id := "P1", name := "Widget", quantity := 2, revenue := 40 }] }

def mainOutTwoB : MainJs.SellerOut :=
  { seller_id := "s2", name := "Bob Jones", revenue := 20, profit := 10, bonus := 1,
    sales_count := 1,
    top_products := [{ product_id := "P1", name := "Widget", quantity := 1, revenue := 20 }] }

def partOutTwoA : Part000.SellerOut :=
  { seller_id := "s1", name := "Alice Smith", revenue := 40, profit := 20,
    sales_count := 1, top_products := [("P1", 2)], bonus := 3 }

def partOutTwoB : Part000.SellerOut :=
  { seller_id := "s2", name := "Bob Jones", revenue := 20, profit := 10,
    sales_count := 1, top_products := [("P1", 1)], bonus := 1 }

theorem mainRun_twoSellers :
    MainJs.analyzeSalesData
        (some (rawOf [productP1] [sellerS1, sellerS2] [recordR1, recordR2]))
        (some mainDefaults)
      = .ok [mainOutTwoA, mainOutTwoB] := by
  norm_num [MainJs.analyzeSalesData, MainJs.checkData, MainJs.checkOptions, rawOf,
    MainJs.analyzeCore, MainJs.buildProductMap, MainJs.buildSellerMap, buildMap,
    List.foldl_cons, List.foldl_nil, setKV, MainJs.initSellerStat, productP1, sellerS1,
    sellerS2, recordR1, recordR2, itemP1, itemP1one, MainJs.processPurchase, lookupKV,
    MainJs.applyItem, updateKV, MainJs.calculateSimpleRevenue, MainJs.rankSeller,
    List.insertionSort, List.orderedInsert, MainJs.profitGe, MainJs.prodRevGe,
    mapWithIndex, MainJs.finalizeSeller, mainDefaults, Option.getD,
    MainJs.calculateBonusByProfit, List.map_cons, List.map_nil, List.take,
    round2_v40, round2_v20, round2_v10, round2_v3, round2_v1, str_alice, str_bob,
    mainOutTwoA, mainOutTwoB, s1_ne_s2, s2_ne_s1]

theorem partRun_twoSellers :
    Part000.analyzeSalesData
        (some (rawOf [productP1] [sellerS1, sellerS2] [recordR1, recordR2]))
        (some partDefaults)
      = .ok [partOutTwoA, partOutTwoB] := by
  norm_num [Part000.analyzeSalesData, Part000.analyzeCore, Part000.foldRecords,
    Part000.processRecord, Part000.bumpReceipt, Part000.foldItems, Part000.processItem,
    Part000.initSellerStat, Part000.finalizeSeller, Part000.calculateSimpleRevenue,
    Part000.calculateBonusByProfit, Part000.profitGe, Part000.qtyGe, buildMap, setKV,
    lookupKV, updateKV, mapWithIndex, List.insertionSort, List.orderedInsert,
    List.take, partDefaults, rawOf, List.foldl_cons, List.foldl_nil, productP1,
    sellerS1, sellerS2, recordR1, recordR2, itemP1, itemP1one, round2_v40, round2_v20,
    round2_v10, round2_v3, round2_v1, str_alice, str_bob, partOutTwoA, partOutTwoB,
    s1_ne_s2, s2_ne_s1]

/-- C3: whenever either variant returns a result, the output sequence is sorted by
profit in descending order: every adjacent pair (a, b) satisfies a.profit >= b.profit. -/
theorem c3_output_sorted_by_profit :
    (∀ (data : Option RawData) (opts : Option MainJs.Options)
        (out : List MainJs.SellerOut),
      MainJs.analyzeSalesData data opts = .ok out →
      List.Chain' (fun a b => b.profit ≤ a.profit) out) ∧
    (∀ (data : Option RawData) (opts : Option Part000.Options)
        (out : List Part000.SellerOut),
      Part000.analyzeSalesData data opts = .ok out →
      List.Chain' (fun a b => b.profit ≤ a.profit) out) := by
  constructor
  · intro data opts out h
    rcases MainJs.analyzeSalesData_ok h with ⟨d, cR, cB, rfl⟩
    exact MainJs.analyzeCore_profit_chain d cR cB
  · intro data opts out h
    rcases Part000.analyzeSalesData_okP h with ⟨d, cR, cB, h2⟩
    exact Part000.analyzeCore_ok_profit_chain h2

/-- Witness for C3: the sortedness of the concrete two-seller outputs of both variants,
obtained from the theorem at the concrete run. -/
theorem c3_output_sorted_by_profit_witness :
    List.Chain' (fun a b : MainJs.SellerOut => b.profit ≤ a.profit)
        [mainOutTwoA, mainOutTwoB] ∧
    List.Chain' (fun a b : Part000.SellerOut => b.profit ≤ a.profit)
        [partOutTwoA, partOutTwoB] :=
  ⟨c3_output_sorted_by_profit.1 _ _ _ mainRun_twoSellers,
   c3_output_sorted_by_profit.2 _ _ _ partRun_twoSellers⟩

/-- Counterexample for C4: in the part_000 variant the top_products entries are plain
sku and quantity pairs with no revenue field, sorted by quantity; at this input the
first listed product A has total item revenue 5 while the second product B has 200, so
the sequence is not sorted by per-product revenue in descending order. -/
theorem c4_counterexample :
    Part000.analyzeSalesData (some (rawOf [productA, productB] [sellerS1] [recordAB]))
        (some partDefaults)
      = .ok [{ seller_id := "s1", name := "Alice Smith", revenue := 205, profit := 205,
               sales_count := 1, top_products := [("A", 5), ("B", 2)],
               bonus := 123 / 4 }] ∧
    Part000.calculateSimpleRevenue itemA productA * (1 : ℚ) = 5 ∧
    Part000.calculateSimpleRevenue itemB productB * (1 : ℚ) = 200 ∧
    ¬((200 : ℚ) ≤ 5) := by
  refine ⟨?_, by norm_num [Part000.calculateSimpleRevenue, itemA, productA],
    by norm_num [Part000.calculateSimpleRevenue, itemB, productB], by norm_num⟩
  norm_num [Part000.analyzeSalesData, Part000.analyzeCore, Part000.foldRecords,
    Part000.processRecord, Part000.bumpReceipt, Part000.foldItems, Part000.processItem,
    Part000.initSellerStat, Part000.finalizeSeller, Part000.calculateSimpleRevenue,
    Part000.calculateBonusByProfit, Part000.profitGe, Part000.qtyGe, buildMap, setKV,
    lookupKV, updateKV, mapWithIndex, List.insertionSort, List.orderedInsert,
    List.take, partDefaults, rawOf, List.foldl_cons, List.foldl_nil, productA, productB,
    sellerS1, recordAB, itemA, itemB, round2_v205, round2_v3075, str_alice, strA_ne_B,
    strB_ne_A]

/-- C4 amended: in every successful run, every output seller of the main.js variant
has top_products of length at most 10 sorted by its revenue field descending, while
every output seller of the part_000 variant has top_products of length at most 10 of
sku and quantity pairs sorted by quantity descending. -/
theorem c4_amended_top_products :
    (∀ (data : Option RawData) (opts : Option MainJs.Options)
        (out : List MainJs.SellerOut),
      MainJs.analyzeSalesData data opts = .ok out →
      ∀ o ∈ out, o.top_products.length ≤ 10 ∧
        List.Chain' (fun a b : MainJs.ProductStat => b.revenue ≤ a.revenue)
          o.top_products) ∧
    (∀ (data : Option RawData) (opts : Option Part000.Options)
        (out : List Part000.SellerOut),
      Part000.analyzeSalesData data opts = .ok out →
      ∀ o ∈ out, o.top_products.length ≤ 10 ∧
        List.Chain' (fun a b : String × ℕ => b.2 ≤ a.2) o.top_products) := by
  constructor
  · intro data opts out h
    rcases MainJs.analyzeSalesData_ok h with ⟨d, cR, cB, rfl⟩
    exact MainJs.analyzeCore_top_products d cR cB
  · intro data opts out h
    rcases Part000.analyzeSalesData_okP h with ⟨d, cR, cB, h2⟩
    exact Part000.analyzeCore_ok_top_products h2

/-- Witness for C4 at the first output seller of the concrete two-seller runs. -/
theorem c4_amended_top_products_witness :
    (mainOutTwoA.top_products.length ≤ 10 ∧
      List.Chain' (fun a b : MainJs.ProductStat => b.revenue ≤ a.revenue)
        mainOutTwoA.top_products) ∧
    (partOutTwoA.top_products.length ≤ 10 ∧
      List.Chain' (fun a b : String × ℕ => b.2 ≤ a.2) partOutTwoA.top_products) :=
  ⟨c4_amended_top_products.1 _ _ _ mainRun_twoSellers mainOutTwoA
      (List.mem_cons_self _ _),
   c4_amended_top_products.2 _ _ _ partRun_twoSellers partOutTwoA
      (List.mem_cons_self _ _)⟩

/-- C7: each variant applies one referential-integrity policy consistently. The main.js
variant is lenient in both cases: its result on any input equals its result after
removing exactly the purchase records of unknown sellers and the line items with
unknown skus, so neither contributes to any output field. The part_000 variant is
strict in both cases: whenever some record references an unknown seller or some line
item references an unknown product, the whole analysis fails with an error. -/
theorem c7_referential_policy :
    (∀ (c : List String) (ps : List Product) (ss : List Seller)
        (rs : List PurchaseRecord) (opts : Option MainJs.Options),
      MainJs.analyzeSalesData (some ⟨some c, some ps, some ss, some rs⟩) opts
        = MainJs.analyzeSalesData
            (some ⟨some c, some ps, some ss, some (cleanseRecords ps ss rs)⟩) opts) ∧
    (∀ (c : Option (List String)) (ps : List Product) (ss : List Seller)
        (rs : List PurchaseRecord) (cR : LineItem → Product → ℚ)
        (cB : ℕ → ℕ → Part000.SellerStat → ℚ),
      rs ≠ [] →
      ((∃ r ∈ rs, r.seller_id ∉ ss.map Seller.id) ∨
        (∃ r ∈ rs, ∃ it ∈ r.items, it.sku ∉ ps.map Product.sku)) →
      ∃ e, Part000.analyzeSalesData (some ⟨c, some ps, some ss, some rs⟩)
          (some ⟨some cR, some cB⟩) = .error e) := by
  constructor
  · intro c ps ss rs opts
    rcases opts with _ | o
    · rfl
    · exact congrArg Except.ok (MainJs.analyzeCore_cleanse ⟨ps, ss, rs⟩ _ _)
  · intro c ps ss rs cR cB hne hbad
    have hlen : ¬ rs.length = 0 := fun h0 => hne (List.length_eq_zero.mp h0)
    have hred : Part000.analyzeSalesData (some ⟨c, some ps, some ss, some rs⟩)
        (some ⟨some cR, some cB⟩) = Part000.analyzeCore ⟨ps, ss, rs⟩ cR cB := by
      simp [Part000.analyzeSalesData, hlen]
    have hbad2 : (∃ r ∈ rs,
          r.seller_id ∉ keysKV (buildMap Seller.id Part000.initSellerStat ss)) ∨
        (∃ r ∈ rs, ∃ it ∈ r.items,
          it.sku ∉ keysKV (buildMap Product.sku (fun p => p) ps)) := by
      rcases hbad with ⟨r, hr, hnot⟩ | ⟨r, hr, it, hit, hnot⟩
      · exact Or.inl ⟨r, hr, fun hmem => hnot ((mem_keysKV_buildMap _ _ _ _).mp hmem)⟩
      · exact Or.inr
          ⟨r, hr, it, hit, fun hmem => hnot ((mem_keysKV_buildMap _ _ _ _).mp hmem)⟩
    rcases Part000.foldRecords_error (buildMap Product.sku (fun p => p) ps) cR rs
        (buildMap Seller.id Part000.initSellerStat ss) hbad2 with ⟨e, he⟩
    refine ⟨e, ?_⟩
    rw [hred]
    simp [Part000.analyzeCore, he]

/-- Witness for C7: a record with an unknown seller id makes the part_000 variant fail
on otherwise valid data. -/
theorem c7_referential_policy_witness :
    ∃ e, Part000.analyzeSalesData
        (some { customers := some [], products := some [productP1],
                sellers := some [sellerS1],
                purchase_records := some [recordGhostSeller] })
        (some { calculateRevenue := some Part000.calculateSimpleRevenue,
                calculateBonus := some Part000.calculateBonusByProfit })
      = .error e :=
  c7_referential_policy.2 (some []) [productP1] [sellerS1] [recordGhostSeller] _ _
    (by decide) (Or.inl (by decide))

namespace MainJs

theorem analyzeCore_idle (d : SalesData) (cR : LineItem → Product → ℚ)
    (cB : ℕ → ℕ → RankedSeller → ℚ) (s : Seller)
    (hnd : (d.sellers.map Seller.id).Nodup) (hs : s ∈ d.sellers)
    (habs : ∀ r ∈ d.purchase_records, r.seller_id ≠ s.id) :
    ∃ o ∈ analyzeCore d cR cB, o.seller_id = s.id ∧
      o.name = s.first_name ++ " " ++ s.last_name ∧ o.revenue = 0 ∧ o.profit = 0 ∧
      o.sales_count = 0 ∧ o.top_products = [] ∧ o.bonus = 0 := by
  have hfinal : lookupKV
      (d.purchase_records.foldl
        (processPurchase (buildProductMap d.products) cR) (buildSellerMap d.sellers))
      s.id = some (initSellerStat s) := by
    rw [lookupKV_foldl_processPurchase_ne (buildProductMap d.products) cR
      d.purchase_records (buildSellerMap d.sellers) s.id habs]
    exact lookupKV_buildSellerMap hnd hs
  have hmem2 : rankSeller (initSellerStat s)
      ∈ ((d.purchase_records.foldl
          (processPurchase (buildProductMap d.products) cR)
          (buildSellerMap d.sellers)).map Prod.snd).map rankSeller :=
    List.mem_map_of_mem _ (List.mem_map_of_mem _ (lookupKV_mem hfinal))
  have hmem3 : rankSeller (initSellerStat s)
      ∈ List.insertionSort profitGe
          (((d.purchase_records.foldl
              (processPurchase (buildProductMap d.products) cR)
              (buildSellerMap d.sellers)).map Prod.snd).map rankSeller) :=
    ((List.perm_insertionSort profitGe _).mem_iff).mpr hmem2
  simp only [analyzeCore]
  rcases exists_mapWithIndex_of_mem hmem3 0 with ⟨i, hi⟩
  refine ⟨_, hi, rfl, rfl, round2_zero, round2_zero, rfl, rfl, ?_⟩
  have hzero : (rankSeller (initSellerStat s)).profit = 0 := rfl
  simp only [finalizeSeller, hzero, zero_mul, round2_zero]

end MainJs

namespace Part000

theorem analyzeCore_idleP (d : SalesData) (cR : LineItem → Product → ℚ) (s : Seller)
    (hnd : (d.sellers.map Seller.id).Nodup) (hs : s ∈ d.sellers)
    (habs : ∀ r ∈ d.purchase_records, r.seller_id ≠ s.id)
    (hsellers : ∀ r ∈ d.purchase_records, r.seller_id ∈ d.sellers.map Seller.id)
    (hitems : ∀ r ∈ d.purchase_records, ∀ it ∈ r.items,
      it.sku ∈ d.products.map Product.sku) :
    ∃ out, analyzeCore d cR calculateBonusByProfit = .ok out ∧
      ∃ o ∈ out, o.seller_id = s.id ∧ o.name = s.first_name ++ " " ++ s.last_name ∧
        o.revenue = 0 ∧ o.profit = 0 ∧ o.sales_count = 0 ∧ o.top_products = [] ∧
        o.bonus = 0 := by
  have hsellers2 : ∀ r ∈ d.purchase_records,
      r.seller_id ∈ keysKV (buildMap Seller.id initSellerStat d.sellers) := by
    intro r hr
    rw [mem_keysKV_buildMap]
    exact hsellers r hr
  have hitems2 : ∀ r ∈ d.purchase_records, ∀ it ∈ r.items,
      it.sku ∈ keysKV (buildMap Product.sku (fun p => p) d.products) := by
    intro r hr it hit
    rw [mem_keysKV_buildMap]
    exact hitems r hr it hit
  rcases foldRecords_ok (buildMap Product.sku (fun p => p) d.products) cR
      d.purchase_records (buildMap Seller.id initSellerStat d.sellers)
      hsellers2 hitems2 with ⟨stats2, hfold, hkeys, hlook⟩
  have hstat : lookupKV stats2 s.id = some (initSellerStat s) := by
    rw [hlook s.id habs]
    exact lookupKV_buildMap_of_nodup Seller.id initSellerStat hnd hs
  have hcore : analyzeCore d cR calculateBonusByProfit
      = .ok (mapWithIndex (fun i st => finalizeSeller st
          (calculateBonusByProfit i
            (List.insertionSort profitGe (stats2.map Prod.snd)).length st)) 0
          (List.insertionSort profitGe (stats2.map Prod.snd))) := by
    simp [analyzeCore, hfold]
  have hmem2 : initSellerStat s ∈ stats2.map Prod.snd :=
    List.mem_map_of_mem _ (lookupKV_mem hstat)
  have hmem3 : initSellerStat s
      ∈ List.insertionSort profitGe (stats2.map Prod.snd) :=
    ((List.perm_insertionSort profitGe _).mem_iff).mpr hmem2
  rcases exists_mapWithIndex_of_mem hmem3 0 with ⟨i, hi⟩
  refine ⟨_, hcore, _, hi, rfl, rfl, round2_zero, round2_zero, rfl, rfl, ?_⟩
  have hz : calculateBonusByProfit i
      (List.insertionSort profitGe (stats2.map Prod.snd)).length (initSellerStat s)
      = 0 :=
    calculateBonusByProfit_profit_zero i _ (initSellerStat s) rfl
  simp only [finalizeSeller, hz, round2_zero]

end Part000

/-- C9: a seller present in the sellers collection that appears in no purchase record
still appears in the output of both variants with zero revenue, zero profit, zero
sales_count, empty top_products, and a bonus computed from the zero profit, which is
zero; for main.js with any strategies, for part_000 with its default bonus strategy. -/
theorem c9_idle_seller :
    ∀ (c : List String) (ps : List Product) (ss : List Seller)
      (rs : List PurchaseRecord) (s : Seller) (cR : LineItem → Product → ℚ)
      (cB : ℕ → ℕ → MainJs.RankedSeller → ℚ) (cRp : LineItem → Product → ℚ),
      ValidInput ⟨ps, ss, rs⟩ → s ∈ ss → (∀ r ∈ rs, r.seller_id ≠ s.id) →
      (∃ out, MainJs.analyzeSalesData (some ⟨some c, some ps, some ss, some rs⟩)
          (some ⟨some cR, some cB⟩) = .ok out ∧
        ∃ o ∈ out, o.seller_id = s.id ∧ o.name = s.first_name ++ " " ++ s.last_name ∧
          o.revenue = 0 ∧ o.profit = 0 ∧ o.sales_count = 0 ∧ o.top_products = [] ∧
          o.bonus = 0) ∧
      (rs ≠ [] →
        ∃ out, Part000.analyzeSalesData (some ⟨some c, some ps, some ss, some rs⟩)
            (some ⟨some cRp, some Part000.calculateBonusByProfit⟩) = .ok out ∧
          ∃ o ∈ out, o.seller_id = s.id ∧
            o.name = s.first_name ++ " " ++ s.last_name ∧ o.revenue = 0 ∧
            o.profit = 0 ∧ o.sales_count = 0 ∧ o.top_products = [] ∧ o.bonus = 0) := by
  intro c ps ss rs s cR cB cRp hvalid hs habs
  obtain ⟨hnd, hsellers, hitems⟩ := hvalid
  constructor
  · exact ⟨_, rfl, MainJs.analyzeCore_idle ⟨ps, ss, rs⟩ cR cB s hnd hs habs⟩
  · intro hne
    have hlen : ¬ rs.length = 0 := fun h0 => hne (List.length_eq_zero.mp h0)
    rcases Part000.analyzeCore_idleP ⟨ps, ss, rs⟩ cRp s hnd hs habs hsellers hitems with
      ⟨out, hcore, ho⟩
    refine ⟨out, ?_, ho⟩
    rw [← hcore]
    simp [Part000.analyzeSalesData, hlen]

/-- Witness for C9: seller s2 sells nothing in a concrete two-seller input and appears
in the output of both variants with all-zero figures. -/
theorem c9_idle_seller_witness :
    (∃ out, MainJs.analyzeSalesData
        (some ⟨some [], some [productP1], some [sellerS1, sellerS2], some [recordR1]⟩)
        (some ⟨some MainJs.calculateSimpleRevenue, some MainJs.calculateBonusByProfit⟩)
        = .ok out ∧
      ∃ o ∈ out, o.seller_id = sellerS2.id ∧
        o.name = sellerS2.first_name ++ " " ++ sellerS2.last_name ∧ o.revenue = 0 ∧
        o.profit = 0 ∧ o.sales_count = 0 ∧ o.top_products = [] ∧ o.bonus = 0) ∧
    (∃ out, Part000.analyzeSalesData
        (some ⟨some [], some [productP1], some [sellerS1, sellerS2], some [recordR1]⟩)
        (some ⟨some Part000.calculateSimpleRevenue, some Part000.calculateBonusByProfit⟩)
        = .ok out ∧
      ∃ o ∈ out, o.seller_id = sellerS2.id ∧
        o.name = sellerS2.first_name ++ " " ++ sellerS2.last_name ∧ o.revenue = 0 ∧
        o.profit = 0 ∧ o.sales_count = 0 ∧ o.top_products = [] ∧ o.bonus = 0) := by
  have h := c9_idle_seller [] [productP1] [sellerS1, sellerS2] [recordR1] sellerS2
    MainJs.calculateSimpleRevenue MainJs.calculateBonusByProfit
    Part000.calculateSimpleRevenue (by decide) (by decide) (by decide)
  exact ⟨h.1, h.2 (by decide)⟩

/-- Counterexample for C1: the part_000 variant accumulates record.total_amount into
the seller revenue rather than the injected calculateRevenue of the line items; at a
valid input whose receipt total_amount is 1000 while its only line item has revenue
40, the summed output revenue is 1000 and differs from the line-item sum by far more
than any rounding tolerance. -/
theorem c1_counterexample :
    Part000.analyzeSalesData (some (rawOf [productP1] [sellerS1] [recordBig]))
        (some partDefaults)
      = .ok [{ seller_id := "s1", name := "Alice Smith", revenue := 1000, profit := 20,
               sales_count := 1, top_products := [("P1", 2)], bonus := 3 }] ∧
    totalLineRevenue [productP1] Part000.calculateSimpleRevenue [recordBig] = 40 ∧
    ValidInput { products := [productP1], sellers := [sellerS1],
                 purchase_records := [recordBig] } ∧
    ¬(|(1000 : ℚ) - 40| ≤ (1 : ℚ) / 200) := by
  refine ⟨?_, ?_, by decide, ?_⟩
  · norm_num [Part000.analyzeSalesData, Part000.analyzeCore, Part000.foldRecords,
      Part000.processRecord, Part000.bumpReceipt, Part000.foldItems,
      Part000.processItem, Part000.initSellerStat, Part000.finalizeSeller,
      Part000.calculateSimpleRevenue, Part000.calculateBonusByProfit, Part000.profitGe,
      Part000.qtyGe, buildMap, setKV, lookupKV, updateKV, mapWithIndex,
      List.insertionSort, List.orderedInsert, List.take, partDefaults, rawOf,
      List.foldl_cons, List.foldl_nil, productP1, sellerS1, recordBig, itemP1,
      round2_v1000, round2_v20, round2_v3, str_alice]
  · norm_num [totalLineRevenue, buildMap, setKV, lookupKV, List.foldl_cons,
      List.foldl_nil, productP1, recordBig, itemP1, Part000.calculateSimpleRevenue,
      List.map_cons, List.map_nil]
  · intro hc
    rw [show |(1000 : ℚ) - 40| = 960 from by
      rw [show (1000 : ℚ) - 40 = 960 from by norm_num]
      exact abs_of_pos (by norm_num)] at hc
    norm_num at hc

/-- C1 amended: in the main.js variant the claim holds: for every valid input and any
strategies, analyze succeeds and the sum of the revenue fields across the output
sellers equals the sum over all line items of calculateRevenue(item, product) up to
the two-decimal rounding of each output revenue, that is up to n / 200 for n output
sellers. The part_000 variant instead sums the total_amount fields of the receipts, as
the counterexample shows. -/
theorem c1_revenue_sum_amended :
    ∀ (c : List String) (ps : List Product) (ss : List Seller)
      (rs : List PurchaseRecord) (cR : LineItem → Product → ℚ)
      (cB : ℕ → ℕ → MainJs.RankedSeller → ℚ),
      ValidInput ⟨ps, ss, rs⟩ →
      ∃ out, MainJs.analyzeSalesData (some ⟨some c, some ps, some ss, some rs⟩)
          (some ⟨some cR, some cB⟩) = .ok out ∧
        |(out.map (fun o => o.revenue)).sum - totalLineRevenue ps cR rs|
          ≤ (out.length : ℚ) / 200 := by
  intro c ps ss rs cR cB hvalid
  exact ⟨_, rfl, MainJs.analyzeCore_revenue_sum_close ⟨ps, ss, rs⟩ cR cB hvalid.2.1⟩

/-- Witness for C1 at the concrete one-seller input of the specification scenario. -/
theorem c1_revenue_sum_amended_witness :
    ∃ out, MainJs.analyzeSalesData
        (some ⟨some [], some [productP1], some [sellerS1], some [recordR1]⟩)
        (some ⟨some MainJs.calculateSimpleRevenue, some MainJs.calculateBonusByProfit⟩)
        = .ok out ∧
      |(out.map (fun o => o.revenue)).sum
          - totalLineRevenue [productP1] MainJs.calculateSimpleRevenue [recordR1]|
        ≤ (out.length : ℚ) / 200 :=
  c1_revenue_sum_amended [] [productP1] [sellerS1] [recordR1]
    MainJs.calculateSimpleRevenue MainJs.calculateBonusByProfit (by decide)
